import Mathlib

set_option maxRecDepth 4000

/-!
Verification of the simulated OBD-II/UDS diagnostic endpoint.

Shallow embedding of the diagnostic protocol stack:
* `src/lib/isotp.py`   — ISO-TP frame codec, sender, receiver
* `src/lib/dtc_manager.py` — trouble-code lifecycle manager
* `src/lib/obd_services.py` — OBD-II mode dispatcher
* `src/lib/uds_services.py` — UDS service engine

Conventions: byte strings are `List Nat` (entries < 256 where it matters),
wall-clock timestamps are `ℤ` (the code only subtracts and compares
them, and every concrete execution uses whole-second times; other float
quantities are `ℚ`), Python exceptions
are `Option`/`Except Unit` failures, and Python dicts are association lists
in insertion order.
-/

namespace OBD2

/-! ### ISO-TP frame codec (`src/lib/isotp.py`) -/

/-- `FrameType` enum from `isotp.py`. -/
inductive FrameType where
  | SINGLE_FRAME
  | FIRST_FRAME
  | CONSECUTIVE_FRAME
  | FLOW_CONTROL
deriving DecidableEq, Repr

/-- `ISOTPConfig` dataclass (defaults as in the source). -/
structure ISOTPConfig where
  stmin : Nat := 0
  block_size : Nat := 0
  timeout_ms : Nat := 1000
  padding : Bool := true
deriving DecidableEq, Repr

/-- Padding step shared by the `create_*` constructors:
`if padding and len(frame) < 8: frame += b"\x00" * (8 - len(frame))`. -/
def padFrame (padding : Bool) (frame : List Nat) : List Nat :=
  if padding ∧ frame.length < 8 then frame ++ List.replicate (8 - frame.length) 0 else frame

/-- `ISOTPFrame.parse`.  `none` models a raised exception (empty data,
unknown PCI nibble, or the `data[1]` IndexError on a 1-byte First frame). -/
def ISOTPFrame.parse (data : List Nat) : Option (FrameType × List Nat) :=
  match data with
  | [] => none
  | pci :: _ =>
    if pci &&& 0xF0 = 0x00 then
      some (.SINGLE_FRAME, (data.drop 1).take (pci &&& 0x0F))
    else if pci &&& 0xF0 = 0x10 then
      match data with
      | _ :: _ :: _ => some (.FIRST_FRAME, data.drop 2)
      | _ => none
    else if pci &&& 0xF0 = 0x20 then
      some (.CONSECUTIVE_FRAME, data.drop 1)
    else if pci &&& 0xF0 = 0x30 then
      some (.FLOW_CONTROL, (data.drop 1).take 2)
    else
      none

/-- `ISOTPFrame.create_single_frame`; `none` models the ValueError on
data longer than 7 bytes. -/
def ISOTPFrame.create_single_frame (data : List Nat) (padding : Bool) : Option (List Nat) :=
  if data.length > 7 then none
  else some (padFrame padding ((0x00 ||| data.length) :: data))

/-- `ISOTPFrame.create_first_frame`; `none` models the ValueError on a
total length above 4095. -/
def ISOTPFrame.create_first_frame (total_length : Nat) (data : List Nat) (padding : Bool) :
    Option (List Nat) :=
  if total_length > 4095 then none
  else some (padFrame padding
    ((0x10 ||| ((total_length >>> 8) &&& 0x0F)) :: (total_length &&& 0xFF) :: data.take 6))

/-- `ISOTPFrame.create_consecutive_frame`. -/
def ISOTPFrame.create_consecutive_frame (seq_num : Nat) (data : List Nat) (padding : Bool) :
    List Nat :=
  padFrame padding ((0x20 ||| (seq_num &&& 0x0F)) :: data.take 7)

/-- `ISOTPFrame.create_flow_control` (flow status 0 = Continue-to-send,
1 = Wait, 2 = Overflow). -/
def ISOTPFrame.create_flow_control (flow_status : Nat) (block_size : Nat) (stmin : Nat)
    (padding : Bool) : List Nat :=
  padFrame padding [0x30 ||| flow_status, block_size &&& 0xFF, stmin &&& 0xFF]

/-! ### ISO-TP sender (`ISOTPSender`) -/

/-- Consecutive-frame loop of `ISOTPSender._send_multi_frame`: chunks of 7
bytes, sequence number starting at 1 and wrapping modulo 16. -/
def sendConsecutiveFrames (cfg : ISOTPConfig) (remaining : List Nat) (seq_num : Nat) :
    List (List Nat) :=
  match remaining with
  | [] => []
  | x :: xs =>
    ISOTPFrame.create_consecutive_frame seq_num ((x :: xs).take 7) cfg.padding ::
      sendConsecutiveFrames cfg ((x :: xs).drop 7) ((seq_num + 1) % 16)
termination_by remaining.length
decreasing_by simp [List.length_drop]; omega

/-- `ISOTPSender.send`, as the ordered list of CAN frames put on the bus.
For payloads above 7 bytes the First frame carries `payload[:6]` and the
consecutive frames follow once flow control is accepted (the paired
receiver answers Continue-to-send; see `senderAcceptsFlowControl`).
`none` models a send failure (payload too long for ISO-TP). -/
def ISOTPSender.send (cfg : ISOTPConfig) (payload : List Nat) : Option (List (List Nat)) :=
  if payload.length ≤ 7 then
    (ISOTPFrame.create_single_frame payload cfg.padding).map (fun f => [f])
  else
    (ISOTPFrame.create_first_frame payload.length (payload.take 6) cfg.padding).map
      (fun ff => ff :: sendConsecutiveFrames cfg (payload.drop 6) 1)

/-- One round of `ISOTPSender._wait_for_flow_control` on a received frame:
the sender proceeds iff the frame parses as flow control and
`data[0]` (the block-size slot of the parsed payload, as the source reads
it) equals `FlowStatus.CONTINUE_TO_SEND.value = 0`. -/
def senderAcceptsFlowControl (frame : List Nat) : Bool :=
  match ISOTPFrame.parse frame with
  | some (.FLOW_CONTROL, data) => data.headD 0 == 0
  | _ => false

/-! ### ISO-TP receiver (`ISOTPReceiver`) -/

/-- Multi-frame reception state of `ISOTPReceiver` (`__init__`). -/
structure ISOTPReceiverState where
  receiving : Bool := false
  expected_length : Nat := 0
  received_data : List Nat := []
  next_seq_num : Nat := 1
  last_frame_time : ℤ := 0
deriving DecidableEq, Repr

/-- `ISOTPReceiver._reset_reception`. -/
def resetReception (_st : ISOTPReceiverState) : ISOTPReceiverState := {}

/-- Result of feeding one frame: new state, optional completed payload,
frames sent back on the bus (flow control). -/
def handleFirstFrame (cfg : ISOTPConfig) (now : ℤ) (st : ISOTPReceiverState)
    (data raw_frame : List Nat) :
    ISOTPReceiverState × Option (List Nat) × List (List Nat) :=
  let pci_high := raw_frame.headI
  let pci_low := (raw_frame.drop 1).headI
  ({ st with
      expected_length := ((pci_high &&& 0x0F) <<< 8) ||| pci_low
      received_data := data.take 6
      next_seq_num := 1
      receiving := true
      last_frame_time := now },
   none,
   [ISOTPFrame.create_flow_control 0 cfg.block_size cfg.stmin cfg.padding])

/-- `ISOTPReceiver._handle_consecutive_frame`.  The chunk size
`min 7 (expected - received)` uses truncated subtraction; on the states the
receiver actually reaches, `received < expected` holds while reassembling,
so this matches the Python arithmetic. -/
def handleConsecutiveFrame (cfg : ISOTPConfig) (now : ℤ) (st : ISOTPReceiverState)
    (data raw_frame : List Nat) :
    ISOTPReceiverState × Option (List Nat) × List (List Nat) :=
  if ¬ st.receiving then (st, none, [])
  else if now - st.last_frame_time > (cfg.timeout_ms : ℤ) / 1000 then
    (resetReception st, none, [])
  else if raw_frame.headI &&& 0x0F ≠ st.next_seq_num then
    (resetReception st, none, [])
  else
    let chunk_size := min 7 (st.expected_length - st.received_data.length)
    let received := st.received_data ++ data.take chunk_size
    let st' := { st with
      received_data := received
      next_seq_num := (st.next_seq_num + 1) % 16
      last_frame_time := now }
    if st.expected_length ≤ received.length then
      (resetReception st', some (received.take st.expected_length), [])
    else
      (st', none, [])

/-- `ISOTPReceiver.receive_frame` on a frame addressed to this receiver.
A parse exception is caught and resets reception. -/
def ISOTPReceiver.receive_frame (cfg : ISOTPConfig) (now : ℤ) (st : ISOTPReceiverState)
    (data : List Nat) : ISOTPReceiverState × Option (List Nat) × List (List Nat) :=
  match ISOTPFrame.parse data with
  | none => (resetReception st, none, [])
  | some (.SINGLE_FRAME, d) => (resetReception st, some d, [])
  | some (.FIRST_FRAME, d) => handleFirstFrame cfg now st d data
  | some (.CONSECUTIVE_FRAME, d) => handleConsecutiveFrame cfg now st d data
  | some (.FLOW_CONTROL, _) => (st, none, [])

/-- Feed a list of frames to the receiver in order, collecting the
delivered payloads and the flow-control frames sent back. -/
def runReceiver (cfg : ISOTPConfig) (now : ℤ) (st : ISOTPReceiverState) :
    List (List Nat) → ISOTPReceiverState × List (List Nat) × List (List Nat)
  | [] => (st, [], [])
  | f :: fs =>
    let r := ISOTPReceiver.receive_frame cfg now st f
    let rest := runReceiver cfg now r.1 fs
    (rest.1, (match r.2.1 with | some p => p :: rest.2.1 | none => rest.2.1), r.2.2 ++ rest.2.2)

/-! ### Vehicle state (`src/lib/vehicle_simulator.py`): the records the
DTC manager and the OBD dispatcher read and write. -/

/-- `SensorData` dataclass (defaults as in the source). -/
structure SensorData where
  rpm : ℚ := 0
  engine_load : ℚ := 0
  coolant_temp : ℚ := 20
  intake_air_temp : ℚ := 25
  maf : ℚ := 0
  timing_advance : ℚ := 0
  throttle_position : ℚ := 0
  fuel_level : ℚ := 75
  fuel_pressure : ℚ := 380
  fuel_rate : ℚ := 0
  vehicle_speed : ℚ := 0
  distance_traveled : ℚ := 0
  distance_with_mil : ℚ := 0
  distance_since_clear : ℚ := 0
  battery_voltage : ℚ := 63/5
  o2_voltage : ℚ := 9/20
  short_term_fuel_trim : ℚ := 0
  long_term_fuel_trim : ℚ := 0
  catalyst_temp : ℚ := 400
  evap_vapor_pressure : ℚ := 0
  barometric_pressure : ℚ := 1013/10
  engine_runtime : ℚ := 0
  warmups_since_clear : Nat := 0
  mil_status : Bool := false

/-- `DriveCycle` dataclass: readiness-monitor completion flags plus
drive-cycle counters. -/
structure DriveCycle where
  misfire_monitor_complete : Bool := false
  fuel_system_monitor_complete : Bool := false
  component_monitor_complete : Bool := false
  catalyst_monitor_complete : Bool := false
  heated_catalyst_monitor_complete : Bool := false
  evap_system_monitor_complete : Bool := false
  secondary_air_monitor_complete : Bool := false
  oxygen_sensor_monitor_complete : Bool := false
  oxygen_sensor_heater_complete : Bool := false
  egr_system_monitor_complete : Bool := false
  idle_time : ℚ := 0
  cruise_time : ℚ := 0
  accel_count : Nat := 0
  decel_count : Nat := 0
  cold_start_count : Nat := 0

/-- `DriveCycle.reset`: every monitor incomplete, every counter zero. -/
def DriveCycle.reset (_c : DriveCycle) : DriveCycle := {}

/-! ### DTC management (`src/lib/dtc_manager.py`) -/

/-- `DTCState` enum. -/
inductive DTCState where
  | PENDING
  | CONFIRMED
  | PERMANENT
  | HISTORY
deriving DecidableEq, Repr

/-- `FreezeFrame` dataclass. -/
structure FreezeFrame where
  timestamp : ℤ
  rpm : ℚ
  speed : ℚ
  coolant_temp : ℚ
  engine_load : ℚ
  throttle_position : ℚ
  fuel_pressure : ℚ
  maf : ℚ
  short_term_fuel_trim : ℚ
  long_term_fuel_trim : ℚ
  timing_advance : ℚ

/-- `FreezeFrame.capture` (the wall-clock is passed explicitly). -/
def FreezeFrame.capture (now : ℤ) (sensors : SensorData) : FreezeFrame where
  timestamp := now
  rpm := sensors.rpm
  speed := sensors.vehicle_speed
  coolant_temp := sensors.coolant_temp
  engine_load := sensors.engine_load
  throttle_position := sensors.throttle_position
  fuel_pressure := sensors.fuel_pressure
  maf := sensors.maf
  short_term_fuel_trim := sensors.short_term_fuel_trim
  long_term_fuel_trim := sensors.long_term_fuel_trim
  timing_advance := sensors.timing_advance

/-- `DiagnosticTroubleCode` dataclass. -/
structure DiagnosticTroubleCode where
  code : String
  description : String
  state : DTCState := .PENDING
  detection_count : Nat := 0
  first_detected : ℤ := 0
  last_detected : ℤ := 0
  freeze_frame : Option FreezeFrame := none
  mil_illuminate : Bool := false
  is_emission_related : Bool := false

/-- `type_map = {'P': 0, 'C': 1, 'B': 2, 'U': 3}` with `.get(..., 0)`. -/
def dtcTypeCode (c : Char) : Nat :=
  if c = 'P' then 0 else if c = 'C' then 1 else if c = 'B' then 2 else if c = 'U' then 3 else 0

/-- Python `int(one_char)`: decimal digits only; anything else raises
ValueError (`none`). -/
def pyIntDigit (c : Char) : Option Nat :=
  if '0' ≤ c ∧ c ≤ '9' then some (c.toNat - 48) else none

/-- `DiagnosticTroubleCode.to_bytes` on the code's character list.
`none` models an uncaught exception (empty code, or `int()` failing on a
non-decimal digit character). -/
def dtcCodeToBytes (code : List Char) : Option (List Nat) :=
  match code with
  | [] => none
  | c :: digits =>
    match digits with
    | [a, b, e, f] => do
      let d1 ← pyIntDigit a
      let d2 ← pyIntDigit b
      let d3 ← pyIntDigit e
      let d4 ← pyIntDigit f
      some [(dtcTypeCode c <<< 6) ||| (d1 <<< 4) ||| d2, (d3 <<< 4) ||| d4]
    | _ => some [0x00, 0x00]

/-- `DiagnosticTroubleCode.to_bytes`. -/
def DiagnosticTroubleCode.to_bytes (d : DiagnosticTroubleCode) : Option (List Nat) :=
  dtcCodeToBytes d.code.data

/-- Decimal digit character, as Python `f"{digit1}"` for a digit ≤ 9. -/
def decDigitChar (n : Nat) : Char := Char.ofNat (48 + n)

/-- Uppercase hexadecimal digit character, as Python `f"{d:X}"` for `d ≤ 15`. -/
def hexDigitChar (n : Nat) : Char :=
  if n < 10 then Char.ofNat (48 + n) else Char.ofNat (55 + n)

/-- The DTC decoder used by the repository's client
(`test_client_v2.py`, Mode 03 handling): type letter from bits 6-7 of the
first byte, digit 1 from bits 4-5, digit 2 from bits 0-3, digits 3 and 4
from the nibbles of the second byte. -/
def dtcDecode (byte1 byte2 : Nat) : List Char :=
  [['P', 'C', 'B', 'U'].getD ((byte1 >>> 6) &&& 0x03) 'P',
   decDigitChar ((byte1 >>> 4) &&& 0x03),
   hexDigitChar (byte1 &&& 0x0F),
   hexDigitChar ((byte2 >>> 4) &&& 0x0F),
   hexDigitChar (byte2 &&& 0x0F)]

/-- `DTC_DEFINITIONS`: (code, description, mil_illuminate, is_emission_related),
in source order. -/
def DTC_DEFINITIONS : List (String × String × Bool × Bool) :=
  [("P0300", "Random/Multiple Cylinder Misfire Detected", true, true),
   ("P0301", "Cylinder 1 Misfire Detected", true, true),
   ("P0302", "Cylinder 2 Misfire Detected", true, true),
   ("P0303", "Cylinder 3 Misfire Detected", true, true),
   ("P0304", "Cylinder 4 Misfire Detected", true, true),
   ("P0171", "System Too Lean (Bank 1)", true, true),
   ("P0172", "System Too Rich (Bank 1)", true, true),
   ("P0174", "System Too Lean (Bank 2)", true, true),
   ("P0175", "System Too Rich (Bank 2)", true, true),
   ("P0128", "Coolant Thermostat (Coolant Temperature Below Thermostat Regulating Temperature)", true, true),
   ("P0420", "Catalyst System Efficiency Below Threshold (Bank 1)", true, true),
   ("P0430", "Catalyst System Efficiency Below Threshold (Bank 2)", true, true),
   ("P0440", "Evaporative Emission Control System Malfunction", true, true),
   ("P0442", "Evaporative Emission Control System Leak Detected (Small Leak)", true, true),
   ("P0443", "Evaporative Emission Control System Purge Control Valve Circuit Malfunction", true, true),
   ("P0446", "Evaporative Emission Control System Vent Control Circuit Malfunction", true, true),
   ("P0130", "O2 Sensor Circuit Malfunction (Bank 1, Sensor 1)", true, true),
   ("P0131", "O2 Sensor Circuit Low Voltage (Bank 1, Sensor 1)", true, true),
   ("P0132", "O2 Sensor Circuit High Voltage (Bank 1, Sensor 1)", true, true),
   ("P0133", "O2 Sensor Circuit Slow Response (Bank 1, Sensor 1)", true, true),
   ("P0134", "O2 Sensor Circuit No Activity Detected (Bank 1, Sensor 1)", true, true),
   ("P0100", "Mass or Volume Air Flow Circuit Malfunction", true, false),
   ("P0101", "Mass or Volume Air Flow Circuit Range/Performance Problem", true, false),
   ("P0102", "Mass or Volume Air Flow Circuit Low Input", true, false),
   ("P0103", "Mass or Volume Air Flow Circuit High Input", true, false),
   ("P0562", "System Voltage Low", true, false),
   ("P0563", "System Voltage High", true, false),
   ("P0401", "Exhaust Gas Recirculation Flow Insufficient Detected", true, true),
   ("P0402", "Exhaust Gas Recirculation Flow Excessive Detected", true, true),
   ("P0700", "Transmission Control System Malfunction", false, false),
   ("P0715", "Input/Turbine Speed Sensor Circuit Malfunction", false, false),
   ("P0720", "Output Speed Sensor Circuit Malfunction", false, false),
   ("P1000", "OBD System Readiness Test Not Complete", false, false)]

/-- Catalog lookup (`code in DTC_DEFINITIONS` / `DTC_DEFINITIONS[code]`). -/
def dtcDefLookup (code : String) : Option (String × Bool × Bool) :=
  (DTC_DEFINITIONS.find? (·.1 == code)).map (·.2)

/-- `DTCManager` state.  The `self.dtcs` dict is an association list in
insertion order, keyed by the `code` field. -/
structure DTCManager where
  dtcs : List DiagnosticTroubleCode := []
  mil_on : Bool := false
  pending_to_confirmed_threshold : Nat := 2
  healing_drive_cycles : Nat := 40
  drive_cycle_count : Nat := 0

/-- `DTCManager._update_mil`. -/
def updateMil (m : DTCManager) : DTCManager :=
  { m with mil_on := m.dtcs.any fun d =>
      d.mil_illuminate && (d.state == .CONFIRMED || d.state == .PERMANENT) }

/-- `DTCManager._cleanup_history` with the default `max_history = 10`:
when more than 10 HISTORY entries exist, the oldest (by `last_detected`,
stable sort) are deleted from the dict by code. -/
def cleanupHistory (m : DTCManager) : DTCManager :=
  let history := m.dtcs.filter (·.state == .HISTORY)
  if history.length > 10 then
    let sorted := history.mergeSort (fun a b => a.last_detected ≤ b.last_detected)
    let doomed := sorted.take (history.length - 10)
    { m with dtcs := m.dtcs.filter fun d => ¬ doomed.any (·.code == d.code) }
  else m

/-- `DTCManager.inject_dtc`; returns the new state and the boolean result.
An unknown code is rejected without touching the state. -/
def injectDtc (now : ℤ) (code : String) (sensors : SensorData)
    (capture_freeze_frame : Bool) (m : DTCManager) : DTCManager × Bool :=
  match dtcDefLookup code with
  | none => (m, false)
  | some (description, mil_illuminate, is_emission) =>
    if m.dtcs.any (·.code == code) then
      let dtcs' := m.dtcs.map fun d =>
        if d.code == code then
          let d' := { d with detection_count := d.detection_count + 1, last_detected := now }
          if d'.state == .PENDING ∧ d'.detection_count ≥ m.pending_to_confirmed_threshold then
            { d' with state := if d'.is_emission_related then .PERMANENT else .CONFIRMED }
          else d'
        else d
      (updateMil { m with dtcs := dtcs' }, true)
    else
      let freeze := if capture_freeze_frame then some (FreezeFrame.capture now sensors) else none
      let dtc : DiagnosticTroubleCode :=
        { code := code, description := description, state := .PENDING, detection_count := 1,
          first_detected := now, last_detected := now, freeze_frame := freeze,
          mil_illuminate := mil_illuminate, is_emission_related := is_emission }
      (updateMil { m with dtcs := m.dtcs ++ [dtc] }, true)

/-- Loop body of `DTCManager.clear_dtcs` on one entry: PENDING/CONFIRMED
move to HISTORY; PERMANENT moves only when `clear_permanent` is set. -/
def clearStep (clear_permanent : Bool) (d : DiagnosticTroubleCode) : DiagnosticTroubleCode :=
  if d.state == .PERMANENT ∧ ¬ clear_permanent then d
  else if d.state == .PENDING ∨ d.state == .CONFIRMED then { d with state := .HISTORY }
  else if clear_permanent ∧ d.state == .PERMANENT then { d with state := .HISTORY }
  else d

/-- `DTCManager.clear_dtcs` proper: apply `clearStep` to every entry,
collect the cleared codes, prune history, recompute the MIL. -/
def clearDtcs (clear_permanent : Bool) (m : DTCManager) : DTCManager × List String :=
  let cleared := (m.dtcs.filter fun d =>
    d.state == .PENDING || d.state == .CONFIRMED ||
      (clear_permanent && d.state == .PERMANENT)).map (·.code)
  (updateMil (cleanupHistory { m with dtcs := m.dtcs.map (clearStep clear_permanent) }), cleared)

/-- `DTCManager.drive_cycle_complete`: heal (delete) PENDING entries not
detected within `healing_drive_cycles × 600` seconds, then recompute MIL. -/
def driveCycleComplete (now : ℤ) (m : DTCManager) : DTCManager :=
  let m' := { m with drive_cycle_count := m.drive_cycle_count + 1 }
  let dtcs' := m'.dtcs.filter fun d =>
    ¬ (d.state == .PENDING ∧ now - d.last_detected > (m'.healing_drive_cycles : ℤ) * 600)
  updateMil { m' with dtcs := dtcs' }

/-- `DTCManager.get_dtcs_by_state`. -/
def getDtcsByState (s : DTCState) (m : DTCManager) : List DiagnosticTroubleCode :=
  m.dtcs.filter (·.state == s)

/-- `DTCManager.get_dtc_count`: confirmed plus permanent. -/
def getDtcCount (m : DTCManager) : Nat :=
  (getDtcsByState .CONFIRMED m).length + (getDtcsByState .PERMANENT m).length

/-- `DTCManager.get_all_active_dtcs`. -/
def getAllActiveDtcs (m : DTCManager) : List DiagnosticTroubleCode :=
  m.dtcs.filter fun d =>
    d.state == .PENDING || d.state == .CONFIRMED || d.state == .PERMANENT

/-! ### UDS service engine (`src/lib/uds_services.py`)

Sessions are the `DiagnosticSession` byte values (1 = DEFAULT,
2 = PROGRAMMING, 3 = EXTENDED, 4 = SAFETY_SYSTEM); security levels the
`SecurityLevel` values (0 = LOCKED, 1, 2).  The seed generated by
`random.randint` is an injected argument `rand`.  `Except Unit` failure
models an uncaught Python exception escaping the handler. -/

/-- `str.encode('ascii')` for the ASCII strings used by the handlers. -/
def strBytes (s : String) : List Nat := s.data.map Char.toNat

/-- `bytes.ljust(n, b"\x00")`. -/
def ljustZero (n : Nat) (l : List Nat) : List Nat := l ++ List.replicate (n - l.length) 0

/-- `UDSServiceHandler._initialize_dids` (default VIN as in the source). -/
def initializeDids (vin : String) : List (Nat × List Nat) :=
  [(0xF187, strBytes "12345678"),
   (0xF18A, strBytes "SUPPLIER"),
   (0xF18B, strBytes "20250101"),
   (0xF18C, strBytes "SN123456789012"),
   (0xF18E, strBytes "v2.0.0"),
   (0xF190, ljustZero 17 ((strBytes vin).take 17)),
   (0xF191, strBytes "HW1.0"),
   (0xF19E, strBytes "ENGINE-ECU"),
   (0x0100, [0x00, 0x01]),
   (0x0101, [0x00, 0x02])]

/-- Python dict membership `k in d` on an insertion-ordered assoc list. -/
def dictMem (k : Nat) (l : List (Nat × α)) : Bool := l.any (·.1 == k)

/-- Python dict read `d[k]` (`none` = KeyError). -/
def dictGet (k : Nat) (l : List (Nat × α)) : Option α := (l.find? (·.1 == k)).map (·.2)

/-- Python dict write `d[k] = v`: update in place, or append a new key. -/
def dictSet (k : Nat) (v : α) (l : List (Nat × α)) : List (Nat × α) :=
  if dictMem k l then l.map fun p => if p.1 == k then (k, v) else p else l ++ [(k, v)]

/-- Python dict deletion `del d[k]`. -/
def dictDel (k : Nat) (l : List (Nat × α)) : List (Nat × α) := l.filter (·.1 != k)

/-- Mutable state of `UDSServiceHandler` (defaults from `__init__`). -/
structure UDSHandler where
  dtc_manager : DTCManager := {}
  current_session : Nat := 0x01
  security_level : Nat := 0x00
  session_start_time : ℤ := 0
  session_timeout : ℤ := 5
  current_seed : Option Nat := none
  security_attempts : Nat := 0
  max_security_attempts : Nat := 3
  io_controls : List (Nat × Bool) := []
  active_routines : List (Nat × String) := []
  dids : List (Nat × List Nat) := initializeDids "1HGBH41JXMN109186"

/-- `UDSServiceHandler._negative_response`. -/
def negativeResponse (service nrc : Nat) : List Nat := [0x7F, service, nrc]

/-- `int.to_bytes(4, "big")` for a 32-bit value. -/
def natToBytes4 (n : Nat) : List Nat :=
  [(n >>> 24) &&& 0xFF, (n >>> 16) &&& 0xFF, (n >>> 8) &&& 0xFF, n &&& 0xFF]

/-- `int.from_bytes(bs, "big")`. -/
def beNat (l : List Nat) : Nat := l.foldl (fun a b => a * 256 + b) 0

/-- Service 0x10 diagnostic session control
(`_service_10_diagnostic_session`). -/
def service_10_diagnostic_session (now : ℤ) (request : List Nat) (s : UDSHandler) :
    UDSHandler × Option (List Nat) :=
  if request.length < 2 then (s, some (negativeResponse 0x10 0x13))
  else
    let session_type := request.getD 1 0
    if ¬ (session_type = 0x01 ∨ session_type = 0x02 ∨ session_type = 0x03 ∨ session_type = 0x04)
    then (s, some (negativeResponse 0x10 0x12))
    else
      let s := { s with current_session := session_type, session_start_time := now }
      let s := if session_type ≠ 0x03 then { s with security_level := 0x00 } else s
      (s, some [0x50, session_type, 0x00, 0x32, 0x01, 0xF4])

/-- Service 0x11 ECU reset (`_service_11_ecu_reset`). -/
def service_11_ecu_reset (request : List Nat) (s : UDSHandler) :
    UDSHandler × Option (List Nat) :=
  if request.length < 2 then (s, some (negativeResponse 0x11 0x13))
  else
    let reset_type := request.getD 1 0
    if ¬ (reset_type = 0x01 ∨ reset_type = 0x02 ∨ reset_type = 0x03)
    then (s, some (negativeResponse 0x11 0x12))
    else (s, some [0x51, reset_type])

/-- Service 0x14 clear diagnostic information (`_service_14_clear_dtc`). -/
def service_14_clear_dtc (request : List Nat) (s : UDSHandler) :
    UDSHandler × Option (List Nat) :=
  if request.length < 4 then (s, some (negativeResponse 0x14 0x13))
  else
    let dtc_group := (request.getD 1 0 <<< 16) ||| (request.getD 2 0 <<< 8) ||| request.getD 3 0
    let s := if dtc_group = 0xFFFFFF
      then { s with dtc_manager := (clearDtcs false s.dtc_manager).1 } else s
    (s, some [0x54])

/-- Concatenate `dtc.to_bytes()` plus a status byte for each code
(`_service_19_read_dtc_info`, sub-function 0x02). -/
def dtcStatusBytes (status : Nat) : List DiagnosticTroubleCode → Option (List Nat)
  | [] => some []
  | d :: rest => do
    let b ← d.to_bytes
    let r ← dtcStatusBytes status rest
    some (b ++ [status] ++ r)

/-- Inline DTC encoding of `_service_19_read_dtc_info` sub-function 0x0A
(same bit packing as `to_bytes`, without the length-4 guard). -/
def dtcCatalogBytes (code : List Char) : Option (List Nat) :=
  match code with
  | c :: a :: b :: e :: f :: _ => do
    let d1 ← pyIntDigit a
    let d2 ← pyIntDigit b
    let d3 ← pyIntDigit e
    let d4 ← pyIntDigit f
    some [(dtcTypeCode c <<< 6) ||| (d1 <<< 4) ||| d2, (d3 <<< 4) ||| d4, 0x00]
  | _ => none

/-- Concatenated catalog encodings for service 0x19 sub 0x0A. -/
def dtcCatalogList : List String → Option (List Nat)
  | [] => some []
  | code :: rest => do
    let b ← dtcCatalogBytes code.data
    let r ← dtcCatalogList rest
    some (b ++ r)

/-- Service 0x19 read DTC information (`_service_19_read_dtc_info`). -/
def service_19_read_dtc_info (request : List Nat) (s : UDSHandler) :
    Except Unit (UDSHandler × Option (List Nat)) :=
  if request.length < 2 then .ok (s, some (negativeResponse 0x19 0x13))
  else
    let sub_function := request.getD 1 0
    if sub_function = 0x01 then
      let dtc_count := getDtcCount s.dtc_manager
      .ok (s, some [0x59, 0x01, 0xFF, 0x00, (dtc_count >>> 8) &&& 0xFF, dtc_count &&& 0xFF])
    else if sub_function = 0x02 then
      if request.length < 3 then .ok (s, some (negativeResponse 0x19 0x13))
      else
        match dtcStatusBytes 0x08 (getAllActiveDtcs s.dtc_manager) with
        | none => .error ()
        | some bs => .ok (s, some ([0x59, 0x02, request.getD 2 0] ++ bs))
    else if sub_function = 0x0A then
      match dtcCatalogList ((DTC_DEFINITIONS.take 10).map (·.1)) with
      | none => .error ()
      | some bs => .ok (s, some ([0x59, 0x0A] ++ bs))
    else .ok (s, some (negativeResponse 0x19 0x12))

/-- Service 0x22 read data by identifier (`_service_22_read_data_by_id`). -/
def service_22_read_data_by_id (request : List Nat) (s : UDSHandler) :
    UDSHandler × Option (List Nat) :=
  if request.length < 3 then (s, some (negativeResponse 0x22 0x13))
  else
    let did := (request.getD 1 0 <<< 8) ||| request.getD 2 0
    match dictGet did s.dids with
    | none => (s, some (negativeResponse 0x22 0x31))
    | some data => (s, some ([0x62, request.getD 1 0, request.getD 2 0] ++ data))

/-- Service 0x27 security access (`_service_27_security_access`).
Odd sub-functions request a seed; even ones submit a 4-byte key checked
against `seed XOR 0x12345678`.  `.error` models the ValueError raised by
`SecurityLevel(level)` when an even sub-function above 0x04 carries a
matching key. -/
def service_27_security_access (rand : Nat) (request : List Nat) (s : UDSHandler) :
    Except Unit (UDSHandler × Option (List Nat)) :=
  if request.length < 2 then .ok (s, some (negativeResponse 0x27 0x13))
  else
    let sub_function := request.getD 1 0
    if sub_function % 2 = 1 then
      let level := (sub_function + 1) / 2
      if level ≤ s.security_level then
        .ok (s, some [0x67, sub_function, 0x00, 0x00, 0x00, 0x00])
      else if s.max_security_attempts ≤ s.security_attempts then
        .ok (s, some (negativeResponse 0x27 0x36))
      else
        .ok ({ s with current_seed := some rand }, some ([0x67, sub_function] ++ natToBytes4 rand))
    else
      if request.length < 6 then .ok (s, some (negativeResponse 0x27 0x13))
      else
        let level := sub_function / 2
        let provided_key := beNat ((request.drop 2).take 4)
        match s.current_seed with
        | none => .ok (s, some (negativeResponse 0x27 0x24))
        | some seed =>
          if provided_key = seed ^^^ 0x12345678 then
            if level = 0 ∨ level = 1 ∨ level = 2 then
              let s := { s with security_level := level, security_attempts := 0 }
              .ok ({ s with current_seed := none }, some [0x67, sub_function])
            else .error ()
          else
            .ok ({ s with security_attempts := s.security_attempts + 1, current_seed := none },
                 some (negativeResponse 0x27 0x35))

/-- Service 0x28 communication control (`_service_28_communication_control`). -/
def service_28_communication_control (request : List Nat) (s : UDSHandler) :
    UDSHandler × Option (List Nat) :=
  if request.length < 3 then (s, some (negativeResponse 0x28 0x13))
  else (s, some [0x68, request.getD 1 0])

/-- Service 0x2E write data by identifier (`_service_2E_write_data_by_id`). -/
def service_2E_write_data_by_id (request : List Nat) (s : UDSHandler) :
    UDSHandler × Option (List Nat) :=
  if request.length < 4 then (s, some (negativeResponse 0x2E 0x13))
  else if s.security_level = 0x00 then (s, some (negativeResponse 0x2E 0x33))
  else
    let did := (request.getD 1 0 <<< 8) ||| request.getD 2 0
    if ¬ dictMem did s.dids then (s, some (negativeResponse 0x2E 0x31))
    else ({ s with dids := dictSet did (request.drop 3) s.dids },
          some [0x6E, request.getD 1 0, request.getD 2 0])

/-- Service 0x2F input/output control (`_service_2F_io_control`). -/
def service_2F_io_control (request : List Nat) (s : UDSHandler) :
    UDSHandler × Option (List Nat) :=
  if request.length < 4 then (s, some (negativeResponse 0x2F 0x13))
  else if s.current_session ≠ 0x03 then (s, some (negativeResponse 0x2F 0x7F))
  else
    let did := (request.getD 1 0 <<< 8) ||| request.getD 2 0
    let control_param := request.getD 3 0
    let s :=
      if control_param = 0x00 then
        if dictMem did s.io_controls then { s with io_controls := dictDel did s.io_controls }
        else s
      else
        let control_state := if request.length > 4 then request.getD 4 0 else 0
        { s with io_controls := dictSet did (control_state ≠ 0) s.io_controls }
    (s, some [0x6F, request.getD 1 0, request.getD 2 0, control_param])

/-- Service 0x31 routine control (`_service_31_routine_control`). -/
def service_31_routine_control (request : List Nat) (s : UDSHandler) :
    UDSHandler × Option (List Nat) :=
  if request.length < 4 then (s, some (negativeResponse 0x31 0x13))
  else
    let sub_function := request.getD 1 0
    let routine_id := (request.getD 2 0 <<< 8) ||| request.getD 3 0
    if sub_function = 0x01 then
      if s.current_session = 0x01 then (s, some (negativeResponse 0x31 0x7F))
      else ({ s with active_routines := dictSet routine_id "running" s.active_routines },
            some [0x71, 0x01, request.getD 2 0, request.getD 3 0, 0x00])
    else if sub_function = 0x02 then
      let s := if dictMem routine_id s.active_routines
        then { s with active_routines := dictSet routine_id "stopped" s.active_routines }
        else s
      (s, some [0x71, 0x02, request.getD 2 0, request.getD 3 0, 0x00])
    else if sub_function = 0x03 then
      let status := if dictMem routine_id s.active_routines then 0x00 else 0x01
      (s, some [0x71, 0x03, request.getD 2 0, request.getD 3 0, status])
    else (s, some (negativeResponse 0x31 0x12))

/-- Service 0x34 request download (`_service_34_request_download`). -/
def service_34_request_download (s : UDSHandler) : UDSHandler × Option (List Nat) :=
  if s.current_session ≠ 0x02 then (s, some (negativeResponse 0x34 0x7F))
  else if s.security_level = 0x00 then (s, some (negativeResponse 0x34 0x33))
  else (s, some [0x74, 0x20, 0x10, 0x00])

/-- Service 0x36 transfer data (`_service_36_transfer_data`). -/
def service_36_transfer_data (request : List Nat) (s : UDSHandler) :
    UDSHandler × Option (List Nat) :=
  if request.length < 2 then (s, some (negativeResponse 0x36 0x13))
  else (s, some [0x76, request.getD 1 0])

/-- Service 0x37 request transfer exit (`_service_37_transfer_exit`). -/
def service_37_transfer_exit (s : UDSHandler) : UDSHandler × Option (List Nat) :=
  (s, some [0x77])

/-- Service 0x3E tester present (`_service_3E_tester_present`): refreshes
the session timer; sub 0x00 answers, anything else suppresses the
response. -/
def service_3E_tester_present (now : ℤ) (request : List Nat) (s : UDSHandler) :
    UDSHandler × Option (List Nat) :=
  if request.length < 2 then (s, some (negativeResponse 0x3E 0x13))
  else
    let sub_function := request.getD 1 0
    let s := { s with session_start_time := now }
    if sub_function = 0x00 then (s, some [0x7E, 0x00]) else (s, none)

/-- Service 0x85 control DTC setting (`_service_85_control_dtc_setting`). -/
def service_85_control_dtc_setting (request : List Nat) (s : UDSHandler) :
    UDSHandler × Option (List Nat) :=
  if request.length < 2 then (s, some (negativeResponse 0x85 0x13))
  else if s.current_session ≠ 0x03 then (s, some (negativeResponse 0x85 0x7F))
  else (s, some [0xC5, request.getD 1 0])

/-- The S3 session-timeout check at the top of `UDSServiceHandler.process`
(skipped for Tester-Present): an expired non-DEFAULT session reverts to
DEFAULT and relocks security before dispatch. -/
def sessionTimeoutCheck (now : ℤ) (service : Nat) (s : UDSHandler) : UDSHandler :=
  if service ≠ 0x3E ∧ s.current_session ≠ 0x01 ∧
      now - s.session_start_time > s.session_timeout
  then { s with current_session := 0x01, security_level := 0x00 }
  else s

/-- `UDSServiceHandler.process`: the S3 session-timeout check, then
dispatch by service byte.  The empty request returns `None` without
touching the state. -/
def UDSServiceHandler.process (now : ℤ) (rand : Nat) (request : List Nat) (s : UDSHandler) :
    Except Unit (UDSHandler × Option (List Nat)) :=
  match request with
  | [] => .ok (s, none)
  | service :: _ =>
    let s := sessionTimeoutCheck now service s
    if service = 0x10 then .ok (service_10_diagnostic_session now request s)
    else if service = 0x11 then .ok (service_11_ecu_reset request s)
    else if service = 0x14 then .ok (service_14_clear_dtc request s)
    else if service = 0x19 then service_19_read_dtc_info request s
    else if service = 0x22 then .ok (service_22_read_data_by_id request s)
    else if service = 0x27 then service_27_security_access rand request s
    else if service = 0x28 then .ok (service_28_communication_control request s)
    else if service = 0x2E then .ok (service_2E_write_data_by_id request s)
    else if service = 0x2F then .ok (service_2F_io_control request s)
    else if service = 0x31 then .ok (service_31_routine_control request s)
    else if service = 0x34 then .ok (service_34_request_download s)
    else if service = 0x36 then .ok (service_36_transfer_data request s)
    else if service = 0x37 then .ok (service_37_transfer_exit s)
    else if service = 0x3E then .ok (service_3E_tester_present now request s)
    else if service = 0x85 then .ok (service_85_control_dtc_setting request s)
    else .ok (s, some (negativeResponse service 0x11))

/-! ### OBD-II dispatcher (`src/lib/obd_services.py`)

The handler owns a DTC manager and reads/writes the vehicle simulator's
`sensors` and `drive_cycle` records; configuration strings as in
`__init__`.  Python `int(x)` on a float truncates toward zero;
`bytes([...])` raises ValueError outside 0..255 (`Except Unit` failure);
`x >> 8` is a floor shift and `x & 0xFF` a modulus, also for negatives. -/

/-- Python `int()` truncation of a float toward zero. -/
def pyInt (q : ℚ) : ℤ := if 0 ≤ q then ⌊q⌋ else ⌈q⌉

/-- Python `x >> 8` on an int (arithmetic shift = floor division). -/
def pyShr8 (x : ℤ) : ℤ := Int.fdiv x 256

/-- Python `x & 0xFF` on an int (result in 0..255 also for negatives). -/
def pyAnd255 (x : ℤ) : ℤ := Int.emod x 256

/-- Python `bytes(list)`: every entry must be in 0..255, else ValueError. -/
def pyBytes (l : List ℤ) : Except Unit (List Nat) :=
  if l.all (fun x => decide (0 ≤ x) && decide (x < 256)) then .ok (l.map Int.toNat)
  else .error ()

/-- The per-ECU state the OBD dispatcher operates on: its DTC manager,
the vehicle simulator's sensor and drive-cycle records, and the
configuration strings of `OBDServiceHandler.__init__`. -/
structure ECUState where
  dtc_manager : DTCManager := {}
  sensors : SensorData := {}
  drive_cycle : DriveCycle := {}
  vin : String := "1HGBH41JXMN109186"
  calibration_id : String := "CALIB12345678"
  ecu_name : String := "ENGINE-ECU"

/-- Mode 01 (`_mode_01_current_data`): current-data PIDs. -/
def mode_01_current_data (st : ECUState) (request : List Nat) : Except Unit (List Nat) :=
  if request.length < 2 then .ok [0x7F, 0x01, 0x12]
  else
    let pid := request.getD 1 0
    let sensors := st.sensors
    let drive_cycle := st.drive_cycle
    if pid = 0x00 then .ok [0x41, 0x00, 0xBF, 0xBF, 0xA8, 0x91]
    else if pid = 0x01 then
      let dtc_count := min 127 (getDtcCount st.dtc_manager)
      let byte_a := (if st.dtc_manager.mil_on then 0x80 else 0x00) ||| dtc_count
      -- byte_b/c/d start with all monitor bits set and clear
      -- (`&= ~bit`) the bit of each completed monitor
      let byte_b := 0x07 - (if drive_cycle.misfire_monitor_complete then 1 else 0)
        - (if drive_cycle.fuel_system_monitor_complete then 2 else 0)
        - (if drive_cycle.component_monitor_complete then 4 else 0)
      let byte_c := 0x0F - (if drive_cycle.catalyst_monitor_complete then 1 else 0)
        - (if drive_cycle.heated_catalyst_monitor_complete then 2 else 0)
        - (if drive_cycle.evap_system_monitor_complete then 4 else 0)
      let byte_d := 0x07 - (if drive_cycle.oxygen_sensor_monitor_complete then 1 else 0)
        - (if drive_cycle.oxygen_sensor_heater_complete then 2 else 0)
        - (if drive_cycle.egr_system_monitor_complete then 4 else 0)
      .ok [0x41, 0x01, byte_a, byte_b, byte_c, byte_d]
    else if pid = 0x03 then .ok [0x41, 0x03, 0x02, 0x00]
    else if pid = 0x04 then
      pyBytes [0x41, 0x04, pyInt (sensors.engine_load * 255 / 100)]
    else if pid = 0x05 then
      pyBytes [0x41, 0x05, pyInt (sensors.coolant_temp + 40)]
    else if pid = 0x06 then
      let trim := pyInt ((sensors.short_term_fuel_trim + 100) * 128 / 100)
      pyBytes [0x41, 0x06, max 0 (min 255 trim)]
    else if pid = 0x07 then
      let trim := pyInt ((sensors.long_term_fuel_trim + 100) * 128 / 100)
      pyBytes [0x41, 0x07, max 0 (min 255 trim)]
    else if pid = 0x0B then
      pyBytes [0x41, 0x0B, pyInt (30 + sensors.engine_load * (7/10))]
    else if pid = 0x0C then
      let rpm_value := pyInt (sensors.rpm * 4)
      pyBytes [0x41, 0x0C, pyAnd255 (pyShr8 rpm_value), pyAnd255 rpm_value]
    else if pid = 0x0D then
      pyBytes [0x41, 0x0D, pyInt sensors.vehicle_speed]
    else if pid = 0x0E then
      let advance := pyInt ((sensors.timing_advance + 64) * 2)
      pyBytes [0x41, 0x0E, max 0 (min 255 advance)]
    else if pid = 0x0F then
      pyBytes [0x41, 0x0F, pyInt (sensors.intake_air_temp + 40)]
    else if pid = 0x10 then
      let maf_value := pyInt (sensors.maf * 100)
      pyBytes [0x41, 0x10, pyAnd255 (pyShr8 maf_value), pyAnd255 maf_value]
    else if pid = 0x11 then
      pyBytes [0x41, 0x11, pyInt (sensors.throttle_position * 255 / 100)]
    else if pid = 0x1C then .ok [0x41, 0x1C, 0x07]
    else if pid = 0x1F then
      let runtime := pyInt sensors.engine_runtime
      pyBytes [0x41, 0x1F, pyAnd255 (pyShr8 runtime), pyAnd255 runtime]
    else if pid = 0x20 then .ok [0x41, 0x20, 0xA0, 0x05, 0xB0, 0x11]
    else if pid = 0x21 then
      let dist := pyInt sensors.distance_with_mil
      pyBytes [0x41, 0x21, pyAnd255 (pyShr8 dist), pyAnd255 dist]
    else if pid = 0x23 then
      let pressure_value := pyInt (sensors.fuel_pressure * 10)
      pyBytes [0x41, 0x23, pyAnd255 (pyShr8 pressure_value), pyAnd255 pressure_value]
    else if pid = 0x2F then
      pyBytes [0x41, 0x2F, pyInt (sensors.fuel_level * 255 / 100)]
    else if pid = 0x30 then
      pyBytes [0x41, 0x30, (sensors.warmups_since_clear : ℤ)]
    else if pid = 0x31 then
      let dist := pyInt sensors.distance_since_clear
      pyBytes [0x41, 0x31, pyAnd255 (pyShr8 dist), pyAnd255 dist]
    else if pid = 0x33 then
      pyBytes [0x41, 0x33, pyInt sensors.barometric_pressure]
    else if pid = 0x40 then .ok [0x41, 0x40, 0x40, 0x00, 0x00, 0x00]
    else if pid = 0x42 then
      let voltage := pyInt (sensors.battery_voltage * 1000)
      pyBytes [0x41, 0x42, pyAnd255 (pyShr8 voltage), pyAnd255 voltage]
    else if pid = 0x5C then
      pyBytes [0x41, 0x5C, pyInt (sensors.coolant_temp + 10 + 40)]
    else .ok [0x7F, 0x01, 0x12]

/-- Mode 02 (`_mode_02_freeze_frame`): freeze frame of the first
CONFIRMED code. -/
def mode_02_freeze_frame (st : ECUState) (request : List Nat) : Except Unit (List Nat) :=
  if request.length < 3 then .ok [0x7F, 0x02, 0x12]
  else
    let pid := request.getD 1 0
    let frame_num := request.getD 2 0
    match getDtcsByState .CONFIRMED st.dtc_manager with
    | [] => .ok [0x7F, 0x02, 0x12]
    | dtc :: _ =>
      if frame_num > 0 then .ok [0x7F, 0x02, 0x12]
      else
        match dtc.freeze_frame with
        | none => .ok [0x7F, 0x02, 0x12]
        | some freeze_frame =>
          if pid = 0x0C then
            let rpm_value := pyInt (freeze_frame.rpm * 4)
            pyBytes [0x42, 0x0C, frame_num, pyAnd255 (pyShr8 rpm_value), pyAnd255 rpm_value]
          else if pid = 0x0D then
            pyBytes [0x42, 0x0D, frame_num, pyInt freeze_frame.speed]
          else if pid = 0x05 then
            pyBytes [0x42, 0x05, frame_num, pyInt (freeze_frame.coolant_temp + 40)]
          else if pid = 0x04 then
            pyBytes [0x42, 0x04, frame_num, pyInt (freeze_frame.engine_load * 255 / 100)]
          else .ok [0x7F, 0x02, 0x12]

/-- Concatenated `dtc.to_bytes()` of a list of codes (`none` when one of
them raises). -/
def dtcBytesConcat : List DiagnosticTroubleCode → Option (List Nat)
  | [] => some []
  | d :: rest => do
    let b ← d.to_bytes
    let r ← dtcBytesConcat rest
    some (b ++ r)

/-- Count byte plus concatenated encodings, shared by modes 03/07/0A. -/
def readDtcsResponse (positive : Nat) (dtcs : List DiagnosticTroubleCode) :
    Except Unit (List Nat) :=
  match dtcs with
  | [] => .ok [positive, 0x00]
  | _ =>
    if dtcs.length ≥ 256 then .error ()
    else
      match dtcBytesConcat dtcs with
      | none => .error ()
      | some bs => .ok ([positive, dtcs.length] ++ bs)

/-- Mode 03 (`_mode_03_read_dtcs`): confirmed plus permanent codes. -/
def mode_03_read_dtcs (st : ECUState) : Except Unit (List Nat) :=
  readDtcsResponse 0x43
    (getDtcsByState .CONFIRMED st.dtc_manager ++ getDtcsByState .PERMANENT st.dtc_manager)

/-- Mode 04 (`_mode_04_clear_dtcs`): ordinary clear plus monitor and
counter resets, positive response `0x44`. -/
def mode_04_clear_dtcs (st : ECUState) : ECUState × List Nat :=
  let m := (clearDtcs false st.dtc_manager).1
  let sensors :=
    { st.sensors with
      distance_since_clear := 0
      distance_with_mil := 0
      warmups_since_clear := 0 }
  let st :=
    { st with
      dtc_manager := m
      drive_cycle := DriveCycle.reset st.drive_cycle
      sensors := sensors }
  (st, [0x44])

/-- Mode 06 (`_mode_06_test_results`): canned O2-sensor test block. -/
def mode_06_test_results : List Nat :=
  [0x46, 0x01, 0x01, 0x00, 0x0A, 0x00, 0xFF, 0x00, 0x45, 0x00, 0xFA]

/-- Mode 07 (`_mode_07_pending_dtcs`). -/
def mode_07_pending_dtcs (st : ECUState) : Except Unit (List Nat) :=
  readDtcsResponse 0x47 (getDtcsByState .PENDING st.dtc_manager)

/-- Mode 08 (`_mode_08_control_systems`): echo the TID. -/
def mode_08_control_systems (request : List Nat) : List Nat :=
  if request.length < 2 then [0x7F, 0x08, 0x12] else [0x48, request.getD 1 0]

/-- Mode 09 (`_mode_09_vehicle_info`). -/
def mode_09_vehicle_info (st : ECUState) (request : List Nat) : List Nat :=
  if request.length < 2 then [0x7F, 0x09, 0x12]
  else
    let pid := request.getD 1 0
    if pid = 0x00 then [0x49, 0x00, 0x55]
    else if pid = 0x02 then [0x49, 0x02, 0x01] ++ ljustZero 17 ((strBytes st.vin).take 17)
    else if pid = 0x04 then [0x49, 0x04, 0x01] ++ ljustZero 16 ((strBytes st.calibration_id).take 16)
    else if pid = 0x06 then [0x49, 0x06, 0x01] ++ [0x12, 0x34, 0x56, 0x78]
    else if pid = 0x0A then [0x49, 0x0A, 0x01] ++ ljustZero 20 ((strBytes st.ecu_name).take 20)
    else [0x7F, 0x09, 0x12]

/-- Mode 0A (`_mode_0A_permanent_dtcs`). -/
def mode_0A_permanent_dtcs (st : ECUState) : Except Unit (List Nat) :=
  readDtcsResponse 0x4A (getDtcsByState .PERMANENT st.dtc_manager)

/-- `OBDServiceHandler.process`: requests shorter than 2 bytes get no
response at all (`None`); otherwise dispatch on the mode byte. -/
def OBDServiceHandler.process (st : ECUState) (request : List Nat) :
    Except Unit (ECUState × Option (List Nat)) :=
  if request.length < 2 then .ok (st, none)
  else
    let mode := request.headI
    if mode = 0x01 then (mode_01_current_data st request).map (fun r => (st, some r))
    else if mode = 0x02 then (mode_02_freeze_frame st request).map (fun r => (st, some r))
    else if mode = 0x03 then (mode_03_read_dtcs st).map (fun r => (st, some r))
    else if mode = 0x04 then
      let r := mode_04_clear_dtcs st
      .ok (r.1, some r.2)
    else if mode = 0x06 then .ok (st, some mode_06_test_results)
    else if mode = 0x07 then (mode_07_pending_dtcs st).map (fun r => (st, some r))
    else if mode = 0x08 then .ok (st, some (mode_08_control_systems request))
    else if mode = 0x09 then .ok (st, some (mode_09_vehicle_info st request))
    else if mode = 0x0A then (mode_0A_permanent_dtcs st).map (fun r => (st, some r))
    else .ok (st, some [0x7F, mode, 0x11])

/-! ### Observation helpers used by concrete executions -/

/-- State reached after one UDS request (identity on an uncaught
exception, which leaves the handler object as it was). -/
def udsStateAfter (now : ℤ) (rand : Nat) (request : List Nat) (s : UDSHandler) : UDSHandler :=
  match UDSServiceHandler.process now rand request s with
  | .ok (s', _) => s'
  | .error _ => s

/-- Response produced by one UDS request (`none` on suppression, no
response, or an uncaught exception). -/
def udsResponse (now : ℤ) (rand : Nat) (request : List Nat) (s : UDSHandler) : Option (List Nat) :=
  match UDSServiceHandler.process now rand request s with
  | .ok (_, r) => r
  | .error _ => none

/-- The MIL invariant of `_update_mil`: the lamp is lit exactly when some
stored code in CONFIRMED or PERMANENT state carries `mil_illuminate`. -/
def milInvariant (m : DTCManager) : Prop :=
  m.mil_on = m.dtcs.any fun d =>
    d.mil_illuminate && (d.state == .CONFIRMED || d.state == .PERMANENT)

/-- Handler state after requesting a seed and submitting a wrong key
three times in a row (seeds `0x10000000`, wrong key `0x00000000`). -/
def threeFailedUnlocks : UDSHandler :=
  udsStateAfter 0 0 [0x27, 0x02, 0x00, 0x00, 0x00, 0x00]
    (udsStateAfter 0 0x10000000 [0x27, 0x01]
      (udsStateAfter 0 0 [0x27, 0x02, 0x00, 0x00, 0x00, 0x00]
        (udsStateAfter 0 0x10000000 [0x27, 0x01]
          (udsStateAfter 0 0 [0x27, 0x02, 0x00, 0x00, 0x00, 0x00]
            (udsStateAfter 0 0x10000000 [0x27, 0x01] {})))))

/-- An ECU state holding one PERMANENT and one CONFIRMED code, used to
exercise the clear operation on a concrete input. -/
def clearWitnessState : ECUState :=
  { dtc_manager :=
      { dtcs :=
          [{ code := "P0420", description := "Catalyst System Efficiency Below Threshold (Bank 1)",
             state := .PERMANENT, detection_count := 2, first_detected := 0, last_detected := 0,
             freeze_frame := none, mil_illuminate := true, is_emission_related := true },
           { code := "P0100", description := "Mass or Volume Air Flow Circuit Malfunction",
             state := .CONFIRMED, detection_count := 2, first_detected := 0, last_detected := 1,
             freeze_frame := none, mil_illuminate := true, is_emission_related := false }]
        mil_on := true } }

/-! ## Helper lemmas -/

theorem padFrame_eq_append {l : List Nat} (h : l.length ≤ 8) :
    padFrame true l = l ++ List.replicate (8 - l.length) 0 := by
  unfold padFrame
  split_ifs with hc
  · rfl
  · simp only [true_and] at hc
    have : l.length = 8 := by omega
    simp [this]

theorem padFrame_length {l : List Nat} (h : l.length ≤ 8) :
    (padFrame true l).length = 8 := by
  rw [padFrame_eq_append h]
  simp
  omega

theorem sf_pci_bits : ∀ n < 8, (n &&& 0xF0 = 0) ∧ (n &&& 0x0F = n) := by decide

theorem ff_pci_bits : ∀ x < 16, ((0x10 ||| x) &&& 0xF0 = 0x10) ∧ ((0x10 ||| x) &&& 0x0F = x) := by
  decide

theorem cf_pci_bits : ∀ s < 16,
    ((0x20 ||| (s &&& 0xF)) &&& 0xF0 = 0x20) ∧ ((0x20 ||| (s &&& 0xF)) &&& 0x0F = s) := by decide

theorem byte_nibble_class : ∀ b < 256,
    ((b &&& 0xF0 = 0x00) ↔ b >>> 4 = 0) ∧ ((b &&& 0xF0 = 0x10) ↔ b >>> 4 = 1) ∧
    ((b &&& 0xF0 = 0x20) ↔ b >>> 4 = 2) ∧ ((b &&& 0xF0 = 0x30) ↔ b >>> 4 = 3) := by decide

theorem or_mul_pow_add (a b : Nat) (h : b < 2 ^ 8) : (2 ^ 8 * a) ||| b = 2 ^ 8 * a + b := by
  apply Nat.eq_of_testBit_eq
  intro j
  rw [Nat.testBit_lor, Nat.testBit_mul_pow_two_add a h j, mul_comm, ← Nat.shiftLeft_eq,
    Nat.testBit_shiftLeft]
  by_cases hj : j < 8
  · simp [hj, Nat.not_le.mpr hj]
  · have hj8 : 8 ≤ j := Nat.not_lt.mp hj
    have hb : b.testBit j = false :=
      Nat.testBit_lt_two_pow (lt_of_lt_of_le h (Nat.pow_le_pow_right (by norm_num) hj8))
    simp [hj, hj8, hb]

/-- The 12-bit length declared in a First frame is recovered exactly by
the receiver's `((pci_high & 0x0F) << 8) | pci_low` computation. -/
theorem ff_expected_length (L : Nat) (h : L < 4096) :
    (((0x10 ||| ((L >>> 8) &&& 0xF)) &&& 0xF) <<< 8) ||| (L &&& 0xFF) = L := by
  have h1 : L >>> 8 = L / 2 ^ 8 := Nat.shiftRight_eq_div_pow L 8
  have h2 : L / 2 ^ 8 < 16 := by omega
  have h3 : (L >>> 8) &&& 0xF = L / 2 ^ 8 := by
    rw [h1, show (0xF : Nat) = 2 ^ 4 - 1 from rfl,
      Nat.and_pow_two_sub_one_of_lt_two_pow (show L / 2 ^ 8 < 2 ^ 4 from h2)]
  have h4 : (0x10 ||| (L / 2 ^ 8)) &&& 0xF = L / 2 ^ 8 := (ff_pci_bits (L / 2 ^ 8) h2).2
  have h5 : L &&& 0xFF = L % 2 ^ 8 := by
    rw [show (0xFF : Nat) = 2 ^ 8 - 1 from rfl, Nat.and_pow_two_sub_one_eq_mod]
  rw [h3, h4, h5, Nat.shiftLeft_eq, mul_comm, or_mul_pow_add _ _ (Nat.mod_lt _ (by norm_num))]
  omega

theorem dtc_byte1_bits : ∀ t < 4, ∀ d1 < 4, ∀ d2 < 10,
    (((t <<< 6) ||| (d1 <<< 4) ||| d2) >>> 6) &&& 3 = t ∧
    (((t <<< 6) ||| (d1 <<< 4) ||| d2) >>> 4) &&& 3 = d1 ∧
    ((t <<< 6) ||| (d1 <<< 4) ||| d2) &&& 15 = d2 := by decide

theorem dtc_byte2_bits : ∀ d3 < 10, ∀ d4 < 10,
    (((d3 <<< 4) ||| d4) >>> 4) &&& 15 = d3 ∧ ((d3 <<< 4) ||| d4) &&& 15 = d4 := by decide

theorem pyIntDigit_decDigitChar : ∀ d < 10, pyIntDigit (decDigitChar d) = some d := by decide

theorem dtcTypeCode_letter : ∀ t < 4, dtcTypeCode (['P', 'C', 'B', 'U'].getD t 'P') = t := by
  decide

theorem hexDigitChar_eq_decDigitChar : ∀ d < 10, hexDigitChar d = decDigitChar d := by decide

/-! ## Claims -/

/-- C10: session control (service 0x10) with a valid sub-function sets the
current session and the session-activity timestamp, returns the positive
response `50 sub 00 32 01 F4`, and resets the security level to LOCKED for
sub-functions 0x01/0x02/0x04 while leaving it unchanged for 0x03
(EXTENDED). -/
theorem session_control_effect (s : UDSHandler) (now : ℤ) (sub : Nat)
    (h : sub = 0x01 ∨ sub = 0x02 ∨ sub = 0x03 ∨ sub = 0x04) :
    service_10_diagnostic_session now [0x10, sub] s =
      ({ s with
          current_session := sub
          session_start_time := now
          security_level := if sub = 0x03 then s.security_level else 0 },
       some [0x50, sub, 0x00, 0x32, 0x01, 0xF4]) := by
  rcases h with h | h | h | h <;> subst h <;> simp [service_10_diagnostic_session]

/-- Witness for `session_control_effect` at sub-function 0x03 with the
security level unlocked to 2. -/
theorem session_control_effect_witness :
    service_10_diagnostic_session 7 [0x10, 0x03] ({ security_level := 2 } : UDSHandler) =
      ({ ({ security_level := 2 } : UDSHandler) with
          current_session := 0x03
          session_start_time := 7
          security_level := if 0x03 = 0x03 then 2 else 0 },
       some [0x50, 0x03, 0x00, 0x32, 0x01, 0xF4]) :=
  session_control_effect { security_level := 2 } 7 0x03 (Or.inr (Or.inr (Or.inl rfl)))

/-- C9 (code bug): the OBD dispatcher refuses every request shorter than
two bytes, so the bare one-byte request `03` gets no response at all
(`None`) — although the mode-03 handler itself would answer `43 00` when
no CONFIRMED or PERMANENT codes are stored, as the repository's own
client (which sends the single byte `03`) and the specification expect. -/
theorem mode03_single_byte_request (st : ECUState) :
    OBDServiceHandler.process st [0x03] = .ok (st, none) ∧
    mode_03_read_dtcs ({ } : ECUState) = .ok [0x43, 0x00] := by
  exact ⟨by simp [OBDServiceHandler.process], rfl⟩

/-- C8 counterexample: `ISOTPFrame.parse` does not fail on a Single frame
whose length nibble exceeds 7, nor on a First frame declaring a total
length below 8 — both parse successfully. -/
theorem parse_lenient_counterexample :
    ISOTPFrame.parse [0x08, 1, 2, 3, 4, 5, 6, 7] = some (.SINGLE_FRAME, [1, 2, 3, 4, 5, 6, 7]) ∧
    ISOTPFrame.parse [0x10, 0x05, 9, 9, 9, 9, 9, 9] = some (.FIRST_FRAME, [9, 9, 9, 9, 9, 9]) := by
  exact ⟨rfl, rfl⟩

/-- C8 (amended): over every byte-list input, `ISOTPFrame.parse` fails
exactly when the input is empty, or it is a one-byte First frame (PCI
type nibble 1 with no second byte — the `data[1]` IndexError), or the
PCI type nibble is none of {0, 1, 2, 3}.  In particular a Single frame
whose length nibble exceeds 7 and a First frame declaring a total length
below 8 are accepted without error. -/
theorem parse_fails_iff_unknown_nibble (d : List Nat) (hb : ∀ b ∈ d, b < 256) :
    ISOTPFrame.parse d = none ↔
      d = [] ∨ (d.headI >>> 4 = 1 ∧ d.length = 1) ∨
        ¬ (d.headI >>> 4 = 0 ∨ d.headI >>> 4 = 1 ∨ d.headI >>> 4 = 2 ∨ d.headI >>> 4 = 3) := by
  match d with
  | [] => simp [ISOTPFrame.parse]
  | [b0] =>
    have hb0 : b0 < 256 := hb b0 (by simp)
    obtain ⟨c0, c1, c2, c3⟩ := byte_nibble_class b0 hb0
    simp only [ISOTPFrame.parse, List.headI]
    split_ifs with g0 g1 g2 g3
    · simp [c0.mp g0]
    · simp [c1.mp g1]
    · simp [c2.mp g2]
    · simp [c3.mp g3]
    · have n0 : ¬ b0 >>> 4 = 0 := fun hh => g0 (c0.mpr hh)
      have n1 : ¬ b0 >>> 4 = 1 := fun hh => g1 (c1.mpr hh)
      have n2 : ¬ b0 >>> 4 = 2 := fun hh => g2 (c2.mpr hh)
      have n3 : ¬ b0 >>> 4 = 3 := fun hh => g3 (c3.mpr hh)
      simp [n0, n1, n2, n3]
  | b0 :: b1 :: rest =>
    have hb0 : b0 < 256 := hb b0 (by simp)
    obtain ⟨c0, c1, c2, c3⟩ := byte_nibble_class b0 hb0
    simp only [ISOTPFrame.parse, List.headI]
    split_ifs with g0 g1 g2 g3
    · simp [c0.mp g0]
    · simp [c1.mp g1]
    · simp [c2.mp g2]
    · simp [c3.mp g3]
    · have n0 : ¬ b0 >>> 4 = 0 := fun hh => g0 (c0.mpr hh)
      have n1 : ¬ b0 >>> 4 = 1 := fun hh => g1 (c1.mpr hh)
      have n2 : ¬ b0 >>> 4 = 2 := fun hh => g2 (c2.mpr hh)
      have n3 : ¬ b0 >>> 4 = 3 := fun hh => g3 (c3.mpr hh)
      simp [n0, n1, n2, n3]

/-- Witness for `parse_fails_iff_unknown_nibble` at the one-byte First
frame `10`, where parse fails although the PCI type nibble is 1. -/
theorem parse_fails_iff_unknown_nibble_witness :
    ISOTPFrame.parse [0x10] = none ↔
      ([0x10] : List Nat) = [] ∨
        (([0x10] : List Nat).headI >>> 4 = 1 ∧ ([0x10] : List Nat).length = 1) ∨
        ¬ (([0x10] : List Nat).headI >>> 4 = 0 ∨ ([0x10] : List Nat).headI >>> 4 = 1 ∨
           ([0x10] : List Nat).headI >>> 4 = 2 ∨ ([0x10] : List Nat).headI >>> 4 = 3) :=
  parse_fails_iff_unknown_nibble [0x10] (by decide)

/-- C2 counterexample: the trouble code `P000A` lies in the claimed range
`P0000`…`U3FFF`, but `to_bytes` raises (models as `none`) on its
hexadecimal digit `A` instead of producing the two-byte encoding
`00 0A`. -/
theorem dtc_codec_counterexample :
    dtcCodeToBytes ('P' :: ['0', '0', '0', 'A']) = none ∧
    dtcCodeToBytes ('P' :: ['0', '0', '0', 'A']) ≠ some [0x00, 0x0A] := by
  exact ⟨rfl, by decide⟩

/-- C2 (amended): for every trouble code whose letter is P/C/B/U, whose
first digit is 0-3 and whose remaining three digits are decimal (0-9),
`to_bytes` produces the claimed two-byte encoding (letter in bits 6-7 of
the first byte, digit 1 in bits 4-5, digit 2 in bits 0-3, digits 3-4 as
the nibbles of the second byte) and the client-side decoder recovers the
original code; codes with hexadecimal digits A-F raise instead. -/
theorem dtc_codec_roundtrip (t d1 d2 d3 d4 : Nat)
    (ht : t < 4) (h1 : d1 < 4) (h2 : d2 < 10) (h3 : d3 < 10) (h4 : d4 < 10) :
    dtcCodeToBytes (['P', 'C', 'B', 'U'].getD t 'P' ::
        [decDigitChar d1, decDigitChar d2, decDigitChar d3, decDigitChar d4])
      = some [(t <<< 6) ||| (d1 <<< 4) ||| d2, (d3 <<< 4) ||| d4] ∧
    dtcDecode ((t <<< 6) ||| (d1 <<< 4) ||| d2) ((d3 <<< 4) ||| d4)
      = ['P', 'C', 'B', 'U'].getD t 'P' ::
        [decDigitChar d1, decDigitChar d2, decDigitChar d3, decDigitChar d4] := by
  have e1 := pyIntDigit_decDigitChar d1 (by omega)
  have e2 := pyIntDigit_decDigitChar d2 h2
  have e3 := pyIntDigit_decDigitChar d3 h3
  have e4 := pyIntDigit_decDigitChar d4 h4
  obtain ⟨f1, f2, f3⟩ := dtc_byte1_bits t ht d1 h1 d2 h2
  obtain ⟨g1, g2⟩ := dtc_byte2_bits d3 h3 d4 h4
  have ht' : dtcTypeCode ((['P', 'C', 'B', 'U'] : List Char)[t]?.getD 'P') = t := by
    simpa [List.getD] using dtcTypeCode_letter t ht
  constructor
  · simp [dtcCodeToBytes, e1, e2, e3, e4, ht']
  · simp only [dtcDecode, f1, f2, f3, g1, g2]
    rw [hexDigitChar_eq_decDigitChar d2 h2, hexDigitChar_eq_decDigitChar d3 h3,
      hexDigitChar_eq_decDigitChar d4 h4]

/-- Witness for `dtc_codec_roundtrip` at the code `P0420`
(t = 0, digits 0, 4, 2, 0). -/
theorem dtc_codec_roundtrip_witness :
    dtcCodeToBytes (['P', 'C', 'B', 'U'].getD 0 'P' ::
        [decDigitChar 0, decDigitChar 4, decDigitChar 2, decDigitChar 0])
      = some [(0 <<< 6) ||| (0 <<< 4) ||| 4, (2 <<< 4) ||| 0] ∧
    dtcDecode ((0 <<< 6) ||| (0 <<< 4) ||| 4) ((2 <<< 4) ||| 0)
      = ['P', 'C', 'B', 'U'].getD 0 'P' ::
        [decDigitChar 0, decDigitChar 4, decDigitChar 2, decDigitChar 0] :=
  dtc_codec_roundtrip 0 0 4 2 0 (by decide) (by decide) (by decide) (by decide) (by decide)

theorem find?_append_of_none {α} {p : α → Bool} {l₁ l₂ : List α} (h : l₁.find? p = none) :
    (l₁ ++ l₂).find? p = l₂.find? p := by
  induction l₁ with
  | nil => rfl
  | cons a l ih =>
    rw [List.find?_cons] at h
    rcases hpa : p a with _ | _
    · rw [hpa] at h
      simp only [List.cons_append, List.find?_cons, hpa]
      exact ih h
    · rw [hpa] at h
      exact absurd h (by simp)

theorem find?_eq_none_of_all {α} {p : α → Bool} {l : List α}
    (h : ∀ d ∈ l, p d = false) : l.find? p = none :=
  List.find?_eq_none.mpr fun x hx => by simp [h x hx]

/-- C3: after any `DTCManager` operation — `inject_dtc` (known or
unknown code), `clear_dtcs`, `drive_cycle_complete` — the MIL flag equals
"some stored CONFIRMED or PERMANENT code has mil_illuminate". -/
theorem mil_invariant_preserved (m : DTCManager) (h : milInvariant m) (now t : ℤ)
    (code : String) (sensors : SensorData) (cap cp : Bool) :
    milInvariant (injectDtc now code sensors cap m).1 ∧
    milInvariant (clearDtcs cp m).1 ∧
    milInvariant (driveCycleComplete t m) := by
  have upd : ∀ m' : DTCManager, milInvariant (updateMil m') := fun m' => rfl
  refine ⟨?_, upd _, upd _⟩
  unfold injectDtc
  cases dtcDefLookup code with
  | none => simpa using h
  | some v =>
    obtain ⟨desc, mil, em⟩ := v
    dsimp only
    split_ifs <;> exact upd _

/-- Witness for `mil_invariant_preserved`: the empty manager satisfies
the invariant, and the three operations preserve it. -/
theorem mil_invariant_preserved_witness :
    milInvariant (injectDtc 0 "P0420" {} true ({} : DTCManager)).1 ∧
    milInvariant (clearDtcs false ({} : DTCManager)).1 ∧
    milInvariant (driveCycleComplete 0 ({} : DTCManager)) :=
  mil_invariant_preserved {} rfl 0 0 "P0420" {} true false

/-- C4: injecting a fresh cataloged code under the default confirmation
threshold 2 leaves it PENDING after the first injection; after the second
it is CONFIRMED, and PERMANENT instead when the code is
emission-related. -/
theorem inject_lifecycle (m : DTCManager) (code desc : String) (mil em : Bool)
    (now1 now2 : ℤ) (s1 s2 : SensorData) (c1 c2 : Bool)
    (hcat : dtcDefLookup code = some (desc, mil, em))
    (hfresh : ∀ d ∈ m.dtcs, (d.code == code) = false)
    (hthr : m.pending_to_confirmed_threshold = 2) :
    (((injectDtc now1 code s1 c1 m).1.dtcs.find? (·.code == code)).map (·.state)
        = some .PENDING) ∧
    (((injectDtc now2 code s2 c2 (injectDtc now1 code s1 c1 m).1).1.dtcs.find?
        (·.code == code)).map (·.state)
        = some (if em then DTCState.PERMANENT else .CONFIRMED)) := by
  have hany : m.dtcs.any (·.code == code) = false := by
    rw [List.any_eq_false]
    intro d hd
    simp [hfresh d hd]
  set d0 : DiagnosticTroubleCode :=
    { code := code, description := desc, state := .PENDING, detection_count := 1,
      first_detected := now1, last_detected := now1,
      freeze_frame := if c1 then some (FreezeFrame.capture now1 s1) else none,
      mil_illuminate := mil, is_emission_related := em } with hd0
  have hm1 : (injectDtc now1 code s1 c1 m).1.dtcs = m.dtcs ++ [d0] := by
    unfold injectDtc
    rw [hcat]
    dsimp only
    rw [if_neg (by simp [hany])]
    rfl
  have hnone : m.dtcs.find? (·.code == code) = none := find?_eq_none_of_all hfresh
  have hfind1 : (injectDtc now1 code s1 c1 m).1.dtcs.find? (·.code == code) = some d0 := by
    rw [hm1, find?_append_of_none hnone, List.find?_cons_of_pos _ (by simp [hd0])]
  constructor
  · rw [hfind1, hd0]
    rfl
  · -- second injection: the existing entry is updated in place and promoted
    have hthr1 : (injectDtc now1 code s1 c1 m).1.pending_to_confirmed_threshold = 2 := by
      rw [show (injectDtc now1 code s1 c1 m).1.pending_to_confirmed_threshold
            = m.pending_to_confirmed_threshold from by
          unfold injectDtc
          rw [hcat]
          dsimp only
          rw [if_neg (by simp [hany])]
          rfl, hthr]
    have hany1 : (injectDtc now1 code s1 c1 m).1.dtcs.any (·.code == code) = true := by
      rw [hm1, List.any_eq_true]
      exact ⟨d0, by simp [hd0]⟩
    set upd : DiagnosticTroubleCode → DiagnosticTroubleCode := fun d =>
      if d.code == code then
        let d' := { d with detection_count := d.detection_count + 1, last_detected := now2 }
        if d'.state == .PENDING ∧
            d'.detection_count ≥ (injectDtc now1 code s1 c1 m).1.pending_to_confirmed_threshold
        then { d' with state := if d'.is_emission_related then .PERMANENT else .CONFIRMED }
        else d'
      else d with hupd
    have hm2 : (injectDtc now2 code s2 c2 (injectDtc now1 code s1 c1 m).1).1.dtcs
        = ((injectDtc now1 code s1 c1 m).1.dtcs).map upd := by
      conv_lhs => rw [injectDtc]
      rw [hcat]
      dsimp only
      rw [if_pos (by simp [hany1])]
      rfl
    have hmapfix : (m.dtcs).map upd = m.dtcs := by
      conv_rhs => rw [← List.map_id m.dtcs]
      apply List.map_congr_left
      intro d hd
      have hne : ¬ d.code = code := by simpa using hfresh d hd
      simp [hupd, hne]
    have hupd0 : upd d0 =
        { d0 with
          detection_count := 2
          last_detected := now2
          state := if em then DTCState.PERMANENT else .CONFIRMED } := by
      rw [hupd]
      simp only [hd0, beq_self_eq_true, if_pos, hthr1]
      rw [if_pos (by constructor <;> simp [hd0])]
    have hfind2 : ((injectDtc now2 code s2 c2 (injectDtc now1 code s1 c1 m).1).1.dtcs.find?
        (·.code == code)) = some (upd d0) := by
      rw [hm2, hm1, List.map_append, find?_append_of_none (by
        rw [hmapfix]; exact hnone)]
      simp only [List.map_cons, List.map_nil]
      rw [List.find?_cons_of_pos _ (by rw [hupd0]; simp [hd0])]
    rw [hfind2, hupd0]
    rfl

/-- Witness for `inject_lifecycle`: injecting `P0420` (emission-related)
twice into the empty manager. -/
theorem inject_lifecycle_witness :
    ((((injectDtc 0 "P0420" {} true ({} : DTCManager)).1.dtcs.find?
        (·.code == "P0420")).map (·.state)) = some .PENDING) ∧
    ((((injectDtc 1 "P0420" {} true
        (injectDtc 0 "P0420" {} true ({} : DTCManager)).1).1.dtcs.find?
        (·.code == "P0420")).map (·.state))
      = some (if true then DTCState.PERMANENT else .CONFIRMED)) :=
  inject_lifecycle {} "P0420" "Catalyst System Efficiency Below Threshold (Bank 1)"
    true true 0 1 {} {} true true rfl (by simp) rfl

theorem clearStep_code (cp : Bool) (d : DiagnosticTroubleCode) :
    (clearStep cp d).code = d.code := by
  unfold clearStep
  split_ifs <;> rfl

theorem clearStep_false_not_active (d : DiagnosticTroubleCode) :
    (clearStep false d).state ≠ .PENDING ∧ (clearStep false d).state ≠ .CONFIRMED := by
  unfold clearStep
  cases hd : d.state <;> simp [hd]

theorem clearStep_false_permanent {d : DiagnosticTroubleCode} (h : d.state = .PERMANENT) :
    clearStep false d = d := by
  unfold clearStep
  rw [if_pos (by simp [h])]

theorem cleanupHistory_mem {m : DTCManager} {d : DiagnosticTroubleCode}
    (h : d ∈ (cleanupHistory m).dtcs) : d ∈ m.dtcs := by
  simp only [cleanupHistory] at h
  split_ifs at h
  · exact (List.mem_filter.mp h).1
  · exact h

theorem cleanupHistory_keeps_non_history {m : DTCManager} {d : DiagnosticTroubleCode}
    (hn : (m.dtcs.map (·.code)).Nodup) (hd : d ∈ m.dtcs) (hs : d.state ≠ .HISTORY) :
    d ∈ (cleanupHistory m).dtcs := by
  simp only [cleanupHistory]
  split_ifs with hlen
  · refine List.mem_filter.mpr ⟨hd, ?_⟩
    rw [decide_eq_true_eq]
    intro hany
    obtain ⟨q, hq_mem, hq_code⟩ := List.any_eq_true.mp hany
    have hq_sorted := List.mem_of_mem_take hq_mem
    have hq_hist := List.mem_mergeSort.mp hq_sorted
    have hq_in : q ∈ m.dtcs := (List.mem_filter.mp hq_hist).1
    have hq_state : q.state = .HISTORY := by
      simpa using (List.mem_filter.mp hq_hist).2
    have heq : q = d := List.inj_on_of_nodup_map hn hq_in hd (by simpa using hq_code)
    exact hs (heq ▸ hq_state)
  · exact hd

/-- C5: after the ordinary clear performed by OBD mode 04
(`clear_dtcs(clear_permanent=False)` plus the monitor and counter
resets), no stored code is PENDING or CONFIRMED, every entry that was
PERMANENT is still stored unchanged (hence still PERMANENT),
distance-since-clear, distance-with-MIL and the warmup counter read 0,
all ten readiness monitors read incomplete, and the response is `44`.
The hypothesis states the dict invariant that stored codes are unique. -/
theorem clear_semantics (st : ECUState)
    (hnodup : (st.dtc_manager.dtcs.map (·.code)).Nodup) :
    (∀ d ∈ (mode_04_clear_dtcs st).1.dtc_manager.dtcs,
        d.state ≠ .PENDING ∧ d.state ≠ .CONFIRMED) ∧
    (∀ d ∈ st.dtc_manager.dtcs, d.state = .PERMANENT →
        d ∈ (mode_04_clear_dtcs st).1.dtc_manager.dtcs) ∧
    (mode_04_clear_dtcs st).1.sensors.distance_since_clear = 0 ∧
    (mode_04_clear_dtcs st).1.sensors.distance_with_mil = 0 ∧
    (mode_04_clear_dtcs st).1.sensors.warmups_since_clear = 0 ∧
    (mode_04_clear_dtcs st).1.drive_cycle.misfire_monitor_complete = false ∧
    (mode_04_clear_dtcs st).1.drive_cycle.fuel_system_monitor_complete = false ∧
    (mode_04_clear_dtcs st).1.drive_cycle.component_monitor_complete = false ∧
    (mode_04_clear_dtcs st).1.drive_cycle.catalyst_monitor_complete = false ∧
    (mode_04_clear_dtcs st).1.drive_cycle.heated_catalyst_monitor_complete = false ∧
    (mode_04_clear_dtcs st).1.drive_cycle.evap_system_monitor_complete = false ∧
    (mode_04_clear_dtcs st).1.drive_cycle.secondary_air_monitor_complete = false ∧
    (mode_04_clear_dtcs st).1.drive_cycle.oxygen_sensor_monitor_complete = false ∧
    (mode_04_clear_dtcs st).1.drive_cycle.oxygen_sensor_heater_complete = false ∧
    (mode_04_clear_dtcs st).1.drive_cycle.egr_system_monitor_complete = false ∧
    (mode_04_clear_dtcs st).2 = [0x44] := by
  set m := st.dtc_manager with hm
  have hdtcs : (mode_04_clear_dtcs st).1.dtc_manager.dtcs
      = (cleanupHistory { m with dtcs := m.dtcs.map (clearStep false) }).dtcs := rfl
  have hmapn : (({ m with dtcs := m.dtcs.map (clearStep false)} : DTCManager).dtcs.map
      (·.code)).Nodup := by
    have : (m.dtcs.map (clearStep false)).map (·.code) = m.dtcs.map (·.code) := by
      rw [List.map_map]
      exact List.map_congr_left fun d _ => clearStep_code false d
    simpa [this] using hnodup
  refine ⟨?_, ?_, rfl, rfl, rfl, rfl, rfl, rfl, rfl, rfl, rfl, rfl, rfl, rfl, rfl, rfl⟩
  · intro d hd
    rw [hdtcs] at hd
    have hd' := cleanupHistory_mem hd
    obtain ⟨e, _, rfl⟩ := List.mem_map.mp hd'
    exact clearStep_false_not_active e
  · intro d hd hs
    rw [hdtcs]
    have hmem : d ∈ m.dtcs.map (clearStep false) :=
      List.mem_map.mpr ⟨d, hd, clearStep_false_permanent hs⟩
    exact cleanupHistory_keeps_non_history hmapn hmem (by rw [hs]; simp)

/-- Witness for `clear_semantics`: a state holding one PERMANENT and one
CONFIRMED code. -/
theorem clear_semantics_witness :
    (∀ d ∈ (mode_04_clear_dtcs clearWitnessState).1.dtc_manager.dtcs,
        d.state ≠ .PENDING ∧ d.state ≠ .CONFIRMED) ∧
    (∀ d ∈ clearWitnessState.dtc_manager.dtcs, d.state = .PERMANENT →
        d ∈ (mode_04_clear_dtcs clearWitnessState).1.dtc_manager.dtcs) ∧
    (mode_04_clear_dtcs clearWitnessState).1.sensors.distance_since_clear = 0 ∧
    (mode_04_clear_dtcs clearWitnessState).1.sensors.distance_with_mil = 0 ∧
    (mode_04_clear_dtcs clearWitnessState).1.sensors.warmups_since_clear = 0 ∧
    (mode_04_clear_dtcs clearWitnessState).1.drive_cycle.misfire_monitor_complete = false ∧
    (mode_04_clear_dtcs clearWitnessState).1.drive_cycle.fuel_system_monitor_complete = false ∧
    (mode_04_clear_dtcs clearWitnessState).1.drive_cycle.component_monitor_complete = false ∧
    (mode_04_clear_dtcs clearWitnessState).1.drive_cycle.catalyst_monitor_complete = false ∧
    (mode_04_clear_dtcs clearWitnessState).1.drive_cycle.heated_catalyst_monitor_complete
      = false ∧
    (mode_04_clear_dtcs clearWitnessState).1.drive_cycle.evap_system_monitor_complete = false ∧
    (mode_04_clear_dtcs clearWitnessState).1.drive_cycle.secondary_air_monitor_complete
      = false ∧
    (mode_04_clear_dtcs clearWitnessState).1.drive_cycle.oxygen_sensor_monitor_complete
      = false ∧
    (mode_04_clear_dtcs clearWitnessState).1.drive_cycle.oxygen_sensor_heater_complete
      = false ∧
    (mode_04_clear_dtcs clearWitnessState).1.drive_cycle.egr_system_monitor_complete = false ∧
    (mode_04_clear_dtcs clearWitnessState).2 = [0x44] :=
  clear_semantics clearWitnessState (by decide)

theorem sessionTimeoutCheck_seed (now : ℤ) (svc : Nat) (s : UDSHandler) :
    (sessionTimeoutCheck now svc s).current_seed = s.current_seed := by
  unfold sessionTimeoutCheck
  split_ifs <;> rfl

theorem sessionTimeoutCheck_attempts (now : ℤ) (svc : Nat) (s : UDSHandler) :
    (sessionTimeoutCheck now svc s).security_attempts = s.security_attempts := by
  unfold sessionTimeoutCheck
  split_ifs <;> rfl

theorem sessionTimeoutCheck_max (now : ℤ) (svc : Nat) (s : UDSHandler) :
    (sessionTimeoutCheck now svc s).max_security_attempts = s.max_security_attempts := by
  unfold sessionTimeoutCheck
  split_ifs <;> rfl

theorem sessionTimeoutCheck_start (now : ℤ) (svc : Nat) (s : UDSHandler) :
    (sessionTimeoutCheck now svc s).session_start_time = s.session_start_time := by
  unfold sessionTimeoutCheck
  split_ifs <;> rfl

/-- C6 (amended): with a seed outstanding, an even key sub-function
whose level `sub/2` is a defined `SecurityLevel` (sub 0x00, 0x02 or
0x04; larger even sub-functions raise on a correct key) is accepted
exactly when the 4-byte key equals `seed XOR 0x12345678`; acceptance
sets the security level to `sub/2`, resets the attempt counter and
invalidates the seed, while a mismatch increments the counter and
invalidates the seed (NRC 0x35).  Once the
attempt counter has reached the maximum (3), seed requests while locked
are refused with NRC 0x36 — and, unlike the original claim, a session
change does not lift the refusal, because session control never resets
the attempt counter (only a successful unlock does). -/
theorem security_access_key_check (s : UDSHandler) (now : ℤ) (rand seed : Nat)
    (sub k1 k2 k3 k4 : Nat)
    (hseed : s.current_seed = some seed)
    (hsub : sub = 0x00 ∨ sub = 0x02 ∨ sub = 0x04) :
    (beNat [k1, k2, k3, k4] = seed ^^^ 0x12345678 →
      UDSServiceHandler.process now rand [0x27, sub, k1, k2, k3, k4] s =
        .ok ({ sessionTimeoutCheck now 0x27 s with
                security_level := sub / 2
                security_attempts := 0
                current_seed := none },
             some [0x67, sub])) ∧
    (beNat [k1, k2, k3, k4] ≠ seed ^^^ 0x12345678 →
      UDSServiceHandler.process now rand [0x27, sub, k1, k2, k3, k4] s =
        .ok ({ sessionTimeoutCheck now 0x27 s with
                security_attempts := s.security_attempts + 1
                current_seed := none },
             some [0x7F, 0x27, 0x35])) ∧
    (∀ s₂ : UDSHandler, s₂.max_security_attempts ≤ s₂.security_attempts →
        s₂.security_level = 0 → ∀ subOdd, subOdd % 2 = 1 →
      UDSServiceHandler.process now rand [0x27, subOdd] s₂ =
        .ok (sessionTimeoutCheck now 0x27 s₂, some [0x7F, 0x27, 0x36])) ∧
    (∀ (s₃ : UDSHandler) (sub10 : Nat),
      (UDSServiceHandler.process now rand [0x10, sub10] s₃).map
          (fun r => r.1.security_attempts)
        = .ok s₃.security_attempts) := by
  have hseed' : (sessionTimeoutCheck now 0x27 s).current_seed = some seed := by
    rw [sessionTimeoutCheck_seed, hseed]
  have hred : UDSServiceHandler.process now rand [0x27, sub, k1, k2, k3, k4] s
      = service_27_security_access rand [0x27, sub, k1, k2, k3, k4]
          (sessionTimeoutCheck now 0x27 s) := rfl
  refine ⟨?_, ?_, ?_, ?_⟩
  · intro hkey
    rw [hred]
    rcases hsub with h | h | h <;> subst h <;>
      (unfold service_27_security_access
       norm_num
       rw [hseed']
       dsimp only
       rw [if_pos hkey])
  · intro hkey
    rw [hred]
    rcases hsub with h | h | h <;> subst h <;>
      (unfold service_27_security_access
       norm_num
       rw [hseed']
       dsimp only
       rw [if_neg hkey]
       simp [sessionTimeoutCheck_attempts, negativeResponse])
  · intro s₂ hmax hlvl subOdd hodd
    have hred2 : UDSServiceHandler.process now rand [0x27, subOdd] s₂
        = service_27_security_access rand [0x27, subOdd]
            (sessionTimeoutCheck now 0x27 s₂) := rfl
    have hlvl' : (sessionTimeoutCheck now 0x27 s₂).security_level = 0 := by
      unfold sessionTimeoutCheck
      split_ifs <;> simp [hlvl]
    have hbig : ¬ ((subOdd + 1) / 2 ≤ (sessionTimeoutCheck now 0x27 s₂).security_level) := by
      rw [hlvl']
      omega
    rw [hred2]
    unfold service_27_security_access
    norm_num
    rw [if_pos hodd, if_neg hbig,
      if_pos (by rw [sessionTimeoutCheck_attempts, sessionTimeoutCheck_max]; exact hmax)]
    rfl
  · intro s₃ sub10
    have hred3 : UDSServiceHandler.process now rand [0x10, sub10] s₃
        = .ok (service_10_diagnostic_session now [0x10, sub10]
            (sessionTimeoutCheck now 0x10 s₃)) := rfl
    rw [hred3]
    unfold service_10_diagnostic_session
    norm_num
    split_ifs <;> simp [Except.map, sessionTimeoutCheck_attempts]

/-- Witness for `security_access_key_check`: seed `0x10000000`
outstanding, correct key `0x10000000 XOR 0x12345678 = 0x02345678`. -/
theorem security_access_key_check_witness :
    (beNat [0x02, 0x34, 0x56, 0x78] = 0x10000000 ^^^ 0x12345678 →
      UDSServiceHandler.process 0 0 [0x27, 0x02, 0x02, 0x34, 0x56, 0x78]
          ({ current_seed := some 0x10000000 } : UDSHandler) =
        .ok ({ sessionTimeoutCheck 0 0x27
                  ({ current_seed := some 0x10000000 } : UDSHandler) with
                security_level := 0x02 / 2
                security_attempts := 0
                current_seed := none },
             some [0x67, 0x02])) ∧
    (beNat [0x02, 0x34, 0x56, 0x78] ≠ 0x10000000 ^^^ 0x12345678 →
      UDSServiceHandler.process 0 0 [0x27, 0x02, 0x02, 0x34, 0x56, 0x78]
          ({ current_seed := some 0x10000000 } : UDSHandler) =
        .ok ({ sessionTimeoutCheck 0 0x27
                  ({ current_seed := some 0x10000000 } : UDSHandler) with
                security_attempts :=
                  ({ current_seed := some 0x10000000 } : UDSHandler).security_attempts + 1
                current_seed := none },
             some [0x7F, 0x27, 0x35])) ∧
    (∀ s₂ : UDSHandler, s₂.max_security_attempts ≤ s₂.security_attempts →
        s₂.security_level = 0 → ∀ subOdd, subOdd % 2 = 1 →
      UDSServiceHandler.process 0 0 [0x27, subOdd] s₂ =
        .ok (sessionTimeoutCheck 0 0x27 s₂, some [0x7F, 0x27, 0x36])) ∧
    (∀ (s₃ : UDSHandler) (sub10 : Nat),
      (UDSServiceHandler.process 0 0 [0x10, sub10] s₃).map
          (fun r => r.1.security_attempts)
        = .ok s₃.security_attempts) :=
  security_access_key_check { current_seed := some 0x10000000 } 0 0 0x10000000
    0x02 0x02 0x34 0x56 0x78 rfl (Or.inr (Or.inl rfl))

/-- C6 counterexample: after three wrong keys the attempt counter is 3;
a session change (service 0x10 to EXTENDED) succeeds but does not reset
it, and the next seed request is still refused with NRC 0x36 — the
original claim's "until the session changes" fails on the code. -/
theorem security_lockout_counterexample :
    threeFailedUnlocks.security_attempts = 3 ∧
    (udsStateAfter 0 0 [0x10, 0x03] threeFailedUnlocks).current_session = 0x03 ∧
    (udsStateAfter 0 0 [0x10, 0x03] threeFailedUnlocks).security_attempts = 3 ∧
    udsResponse 0 0x23456789 [0x27, 0x01] (udsStateAfter 0 0 [0x10, 0x03] threeFailedUnlocks)
      = some [0x7F, 0x27, 0x36] := by
  refine ⟨?_, ?_, ?_, ?_⟩ <;> rfl

theorem hstart_11 (r : List Nat) (s : UDSHandler) :
    (service_11_ecu_reset r s).1.session_start_time = s.session_start_time := by
  unfold service_11_ecu_reset
  try dsimp only
  repeat' split
  all_goals rfl

theorem hstart_14 (r : List Nat) (s : UDSHandler) :
    (service_14_clear_dtc r s).1.session_start_time = s.session_start_time := by
  unfold service_14_clear_dtc
  try dsimp only
  repeat' split
  all_goals rfl

theorem hstart_22 (r : List Nat) (s : UDSHandler) :
    (service_22_read_data_by_id r s).1.session_start_time = s.session_start_time := by
  unfold service_22_read_data_by_id
  try dsimp only
  repeat' split
  all_goals rfl

theorem hstart_28 (r : List Nat) (s : UDSHandler) :
    (service_28_communication_control r s).1.session_start_time = s.session_start_time := by
  unfold service_28_communication_control
  try dsimp only
  repeat' split
  all_goals rfl

theorem hstart_2E (r : List Nat) (s : UDSHandler) :
    (service_2E_write_data_by_id r s).1.session_start_time = s.session_start_time := by
  unfold service_2E_write_data_by_id
  try dsimp only
  repeat' split
  all_goals rfl

theorem hstart_2F (r : List Nat) (s : UDSHandler) :
    (service_2F_io_control r s).1.session_start_time = s.session_start_time := by
  unfold service_2F_io_control
  try dsimp only
  repeat' split
  all_goals rfl

theorem hstart_31 (r : List Nat) (s : UDSHandler) :
    (service_31_routine_control r s).1.session_start_time = s.session_start_time := by
  unfold service_31_routine_control
  try dsimp only
  repeat' split
  all_goals rfl

theorem hstart_34 (s : UDSHandler) :
    (service_34_request_download s).1.session_start_time = s.session_start_time := by
  unfold service_34_request_download
  try dsimp only
  repeat' split
  all_goals rfl

theorem hstart_36 (r : List Nat) (s : UDSHandler) :
    (service_36_transfer_data r s).1.session_start_time = s.session_start_time := by
  unfold service_36_transfer_data
  try dsimp only
  repeat' split
  all_goals rfl

theorem hstart_85 (r : List Nat) (s : UDSHandler) :
    (service_85_control_dtc_setting r s).1.session_start_time = s.session_start_time := by
  unfold service_85_control_dtc_setting
  try dsimp only
  repeat' split
  all_goals rfl

theorem hstart_19 (r : List Nat) (s : UDSHandler) (res : UDSHandler × Option (List Nat))
    (h : service_19_read_dtc_info r s = .ok res) :
    res.1.session_start_time = s.session_start_time := by
  unfold service_19_read_dtc_info at h
  try dsimp only at h
  repeat' split at h
  all_goals first
    | (injection h; done)
    | (injection h with h1; subst h1; rfl)

theorem hstart_27 (rand : Nat) (r : List Nat) (s : UDSHandler)
    (res : UDSHandler × Option (List Nat))
    (h : service_27_security_access rand r s = .ok res) :
    res.1.session_start_time = s.session_start_time := by
  unfold service_27_security_access at h
  try dsimp only at h
  repeat' split at h
  all_goals first
    | (injection h; done)
    | (injection h with h1; subst h1; rfl)

set_option maxHeartbeats 1000000 in
/-- C7 (amended): an accepted request refreshes the session-activity
timestamp only for session control (0x10) and Tester-Present (0x3E).
Every other service — whether answered positively or negatively — leaves
`session_start_time` unchanged, so a non-DEFAULT session expires once
`now − session_start_time` exceeds S3 = 5 s regardless of intervening
accepted requests of other services; Tester-Present always refreshes the
timestamp to `now`. -/
theorem session_activity_refresh :
    (∀ (service : Nat) (rest : List Nat) (s s' : UDSHandler) (resp : Option (List Nat))
       (now : ℤ) (rand : Nat),
       service ≠ 0x10 → service ≠ 0x3E →
       UDSServiceHandler.process now rand (service :: rest) s = .ok (s', resp) →
       s'.session_start_time = s.session_start_time) ∧
    (∀ (s : UDSHandler) (sub : Nat) (now : ℤ) (rand : Nat),
       (UDSServiceHandler.process now rand [0x3E, sub] s).map
           (fun r => r.1.session_start_time) = .ok now) := by
  constructor
  · intro service rest s s' resp now rand hne10 hne3E h
    have pairstep : ∀ (X : UDSHandler × Option (List Nat)),
        Except.ok (ε := Unit) X = .ok (s', resp) → s' = X.1 := by
      intro X hX
      injection hX with hX'
      rw [hX']
    unfold UDSServiceHandler.process at h
    dsimp only at h
    by_cases h10 : service = 0x10
    · exact absurd h10 hne10
    rw [if_neg h10] at h
    by_cases h11 : service = 0x11
    · rw [if_pos h11] at h
      rw [pairstep _ h, hstart_11, sessionTimeoutCheck_start]
    rw [if_neg h11] at h
    by_cases h14 : service = 0x14
    · rw [if_pos h14] at h
      rw [pairstep _ h, hstart_14, sessionTimeoutCheck_start]
    rw [if_neg h14] at h
    by_cases h19 : service = 0x19
    · rw [if_pos h19] at h
      rw [show s'.session_start_time
            = (sessionTimeoutCheck now service s).session_start_time from
          hstart_19 _ _ (s', resp) h, sessionTimeoutCheck_start]
    rw [if_neg h19] at h
    by_cases h22 : service = 0x22
    · rw [if_pos h22] at h
      rw [pairstep _ h, hstart_22, sessionTimeoutCheck_start]
    rw [if_neg h22] at h
    by_cases h27 : service = 0x27
    · rw [if_pos h27] at h
      rw [show s'.session_start_time
            = (sessionTimeoutCheck now service s).session_start_time from
          hstart_27 _ _ _ (s', resp) h, sessionTimeoutCheck_start]
    rw [if_neg h27] at h
    by_cases h28 : service = 0x28
    · rw [if_pos h28] at h
      rw [pairstep _ h, hstart_28, sessionTimeoutCheck_start]
    rw [if_neg h28] at h
    by_cases h2E : service = 0x2E
    · rw [if_pos h2E] at h
      rw [pairstep _ h, hstart_2E, sessionTimeoutCheck_start]
    rw [if_neg h2E] at h
    by_cases h2F : service = 0x2F
    · rw [if_pos h2F] at h
      rw [pairstep _ h, hstart_2F, sessionTimeoutCheck_start]
    rw [if_neg h2F] at h
    by_cases h31 : service = 0x31
    · rw [if_pos h31] at h
      rw [pairstep _ h, hstart_31, sessionTimeoutCheck_start]
    rw [if_neg h31] at h
    by_cases h34 : service = 0x34
    · rw [if_pos h34] at h
      rw [pairstep _ h, hstart_34, sessionTimeoutCheck_start]
    rw [if_neg h34] at h
    by_cases h36 : service = 0x36
    · rw [if_pos h36] at h
      rw [pairstep _ h, hstart_36, sessionTimeoutCheck_start]
    rw [if_neg h36] at h
    by_cases h37 : service = 0x37
    · rw [if_pos h37] at h
      rw [pairstep _ h]
      rw [show (service_37_transfer_exit (sessionTimeoutCheck now service s)).1
          = sessionTimeoutCheck now service s from rfl, sessionTimeoutCheck_start]
    rw [if_neg h37] at h
    by_cases h3E : service = 0x3E
    · exact absurd h3E hne3E
    rw [if_neg h3E] at h
    by_cases h85 : service = 0x85
    · rw [if_pos h85] at h
      rw [pairstep _ h, hstart_85, sessionTimeoutCheck_start]
    rw [if_neg h85] at h
    rw [pairstep _ h]
    exact sessionTimeoutCheck_start now service s
  · intro s sub now rand
    have hred : UDSServiceHandler.process now rand [0x3E, sub] s
        = .ok (service_3E_tester_present now [0x3E, sub]
            (sessionTimeoutCheck now 0x3E s)) := rfl
    rw [hred]
    unfold service_3E_tester_present
    norm_num
    split_ifs <;> rfl

/-- Witness for `session_activity_refresh`: an accepted
ReadDataByIdentifier request at t = 3 in an EXTENDED session leaves the
activity timestamp unchanged. -/
theorem session_activity_refresh_witness :
    (udsStateAfter 3 0 [0x22, 0xF1, 0x90]
        ({ current_session := 0x03 } : UDSHandler)).session_start_time
      = ({ current_session := 0x03 } : UDSHandler).session_start_time :=
  session_activity_refresh.1 0x22 [0xF1, 0x90] { current_session := 0x03 }
    (udsStateAfter 3 0 [0x22, 0xF1, 0x90] { current_session := 0x03 })
    (udsResponse 3 0 [0x22, 0xF1, 0x90] { current_session := 0x03 })
    3 0 (by decide) (by decide) rfl

/-- C7 counterexample: from an EXTENDED session with activity timestamp
0, an accepted ReadDataByIdentifier request at t = 3 s gets the positive
response 0x62… but leaves the timestamp at 0, and the next request at
t = 6 s — only 3 s after an accepted request — finds the session expired
back to DEFAULT with security relocked.  This refutes the original
claim that every accepted non-Tester-Present request refreshes the
session-activity timestamp. -/
theorem session_activity_counterexample :
    (udsResponse 3 0 [0x22, 0xF1, 0x90] ({ current_session := 0x03 } : UDSHandler)).map
        List.headI = some 0x62 ∧
    (udsStateAfter 3 0 [0x22, 0xF1, 0x90]
        ({ current_session := 0x03 } : UDSHandler)).current_session = 0x03 ∧
    (udsStateAfter 3 0 [0x22, 0xF1, 0x90]
        ({ current_session := 0x03 } : UDSHandler)).session_start_time = 0 ∧
    (udsStateAfter 6 0 [0x22, 0xF1, 0x90]
        (udsStateAfter 3 0 [0x22, 0xF1, 0x90]
          ({ current_session := 0x03 } : UDSHandler))).current_session = 0x01 ∧
    (udsStateAfter 6 0 [0x22, 0xF1, 0x90]
        (udsStateAfter 3 0 [0x22, 0xF1, 0x90]
          ({ current_session := 0x03 } : UDSHandler))).security_level = 0 :=
  ⟨rfl, rfl, rfl, rfl, rfl⟩


theorem sendCF_nil (cfg : ISOTPConfig) (s : Nat) : sendConsecutiveFrames cfg [] s = [] := by
  unfold sendConsecutiveFrames
  rfl

theorem sendCF_cons (cfg : ISOTPConfig) (x : Nat) (xs : List Nat) (s : Nat) :
    sendConsecutiveFrames cfg (x :: xs) s
      = ISOTPFrame.create_consecutive_frame s ((x :: xs).take 7) cfg.padding
        :: sendConsecutiveFrames cfg ((x :: xs).drop 7) ((s + 1) % 16) := by
  conv_lhs => unfold sendConsecutiveFrames

theorem sendCF_length : ∀ (n : Nat) (rem : List Nat), rem.length ≤ n →
    ∀ (s : Nat), ∀ f ∈ sendConsecutiveFrames ({} : ISOTPConfig) rem s, f.length = 8 := by
  intro n
  induction n with
  | zero =>
    intro rem h s f hf
    have : rem = [] := List.length_eq_zero.mp (Nat.le_antisymm h (Nat.zero_le _))
    subst this
    rw [sendCF_nil] at hf
    cases hf
  | succ n ih =>
    intro rem h s f hf
    cases rem with
    | nil =>
      rw [sendCF_nil] at hf
      cases hf
    | cons x xs =>
      rw [sendCF_cons] at hf
      rcases List.mem_cons.mp hf with hf | hf
      · subst hf
        unfold ISOTPFrame.create_consecutive_frame
        apply padFrame_length
        simp only [List.length_cons, List.length_take]
        omega
      · apply ih ((x :: xs).drop 7) _ _ f hf
        simp only [List.length_drop, List.length_cons] at h ⊢
        omega

theorem cf_frame_shape (p : List Nat) (k s : Nat) (hk : k < p.length) :
    ISOTPFrame.create_consecutive_frame s ((p.drop k).take 7) true
      = (0x20 ||| (s &&& 0x0F)) ::
          ((p.drop k).take 7 ++ List.replicate (7 - min 7 (p.length - k)) 0) := by
  have hc : ((p.drop k).take 7).length = min 7 (p.length - k) := by
    rw [List.length_take, List.length_drop]
  unfold ISOTPFrame.create_consecutive_frame
  rw [List.take_take]
  have h77 : min 7 7 = 7 := rfl
  rw [h77, padFrame_eq_append (by simp only [List.length_cons, hc]; omega)]
  rw [List.cons_append]
  have : 8 - ((0x20 ||| (s &&& 0x0F)) :: (p.drop k).take 7).length
      = 7 - min 7 (p.length - k) := by
    simp only [List.length_cons, hc]
    omega
  rw [this]

theorem cf_step (p : List Nat) (k s : Nat) (hk : k < p.length) (hs : s < 16) :
    ISOTPReceiver.receive_frame {} 0
        ⟨true, p.length, p.take k, s, 0⟩
        (ISOTPFrame.create_consecutive_frame s ((p.drop k).take 7) true)
      = if p.length ≤ k + 7 then (({} : ISOTPReceiverState), some p, [])
        else (⟨true, p.length, p.take (k + 7), (s + 1) % 16, 0⟩, none, []) := by
  have hc : ((p.drop k).take 7).length = min 7 (p.length - k) := by
    rw [List.length_take, List.length_drop]
  have hklen : (p.take k).length = k := by
    rw [List.length_take]
    omega
  obtain ⟨hpci1, hpci2⟩ := cf_pci_bits s hs
  have hparse : ISOTPFrame.parse ((0x20 ||| (s &&& 0x0F)) ::
        ((p.drop k).take 7 ++ List.replicate (7 - min 7 (p.length - k)) 0))
      = some (.CONSECUTIVE_FRAME,
          (p.drop k).take 7 ++ List.replicate (7 - min 7 (p.length - k)) 0) := by
    unfold ISOTPFrame.parse
    dsimp only
    rw [if_neg (by rw [hpci1]; norm_num), if_neg (by rw [hpci1]; norm_num), if_pos hpci1]
    rfl
  rw [cf_frame_shape p k s hk]
  unfold ISOTPReceiver.receive_frame
  rw [hparse]
  dsimp only
  unfold handleConsecutiveFrame
  dsimp only
  rw [if_neg (by simp)]
  rw [if_neg (by decide)]
  rw [if_neg (by simp [hpci2])]
  rw [hklen]
  have htakec : ((p.drop k).take 7 ++ List.replicate (7 - min 7 (p.length - k)) 0).take
        (min 7 (p.length - k))
      = (p.drop k).take 7 := List.take_left' hc
  rw [htakec]
  have hrecv : p.take k ++ (p.drop k).take 7 = p.take (k + 7) := (List.take_add p k 7).symm
  rw [hrecv]
  have hrlen : (p.take (k + 7)).length = min (k + 7) p.length := List.length_take _ _
  by_cases hle : p.length ≤ k + 7
  · rw [if_pos (by rw [hrlen]; omega), if_pos hle]
    have hdel : (p.take (k + 7)).take p.length = p := by
      rw [List.take_take, Nat.min_eq_left hle, List.take_length]
    rw [hdel]
    rfl
  · rw [if_neg (by rw [hrlen]; omega), if_neg hle]

theorem runReceiver_nil (cfg : ISOTPConfig) (now : ℤ) (st : ISOTPReceiverState) :
    runReceiver cfg now st [] = (st, [], []) := rfl

theorem runReceiver_cons (cfg : ISOTPConfig) (now : ℤ) (st : ISOTPReceiverState)
    (f : List Nat) (fs : List (List Nat)) :
    runReceiver cfg now st (f :: fs)
      = ((runReceiver cfg now (ISOTPReceiver.receive_frame cfg now st f).1 fs).1,
         (match (ISOTPReceiver.receive_frame cfg now st f).2.1 with
          | some p =>
            p :: (runReceiver cfg now (ISOTPReceiver.receive_frame cfg now st f).1 fs).2.1
          | none => (runReceiver cfg now (ISOTPReceiver.receive_frame cfg now st f).1 fs).2.1),
         (ISOTPReceiver.receive_frame cfg now st f).2.2
           ++ (runReceiver cfg now (ISOTPReceiver.receive_frame cfg now st f).1 fs).2.2) := rfl

theorem runReceiver_cf (p : List Nat) :
    ∀ (n k s : Nat), p.length - k = n → k < p.length → s < 16 →
      runReceiver {} 0 ⟨true, p.length, p.take k, s, 0⟩
          (sendConsecutiveFrames {} (p.drop k) s) = ({}, [p], []) := by
  intro n
  induction n using Nat.strong_induction_on with
  | _ n ih =>
    intro k s hn hk hs
    cases hdk : p.drop k with
    | nil =>
      exfalso
      have hlen := congrArg List.length hdk
      simp only [List.length_drop, List.length_nil] at hlen
      omega
    | cons x xs =>
      rw [sendCF_cons, ← hdk, runReceiver_cons]
      have hpad : ({} : ISOTPConfig).padding = true := rfl
      rw [hpad, cf_step p k s hk hs]
      by_cases hle : p.length ≤ k + 7
      · rw [if_pos hle]
        dsimp only
        have hdrop7 : (p.drop k).drop 7 = [] := by
          apply List.drop_eq_nil_of_le
          simp only [List.length_drop]
          omega
        rw [hdrop7, sendCF_nil, runReceiver_nil]
        rfl
      · rw [if_neg hle]
        dsimp only
        have hdrop7 : (p.drop k).drop 7 = p.drop (k + 7) := by
          rw [List.drop_drop, Nat.add_comm]
        have hrec := ih (p.length - (k + 7)) (by omega) (k + 7) ((s + 1) % 16) rfl
          (by omega) (Nat.mod_lt _ (by norm_num))
        rw [hdrop7, hrec]
        rfl

theorem padFrame_full (l : List Nat) (h : l.length = 8) : padFrame true l = l := by
  unfold padFrame
  rw [if_neg (by simp [h])]

theorem ff_step (p : List Nat) (h8 : 7 < p.length) (hlen : p.length ≤ 4095) :
    ISOTPReceiver.receive_frame {} 0 {}
        (padFrame true ((0x10 ||| ((p.length >>> 8) &&& 0x0F))
          :: (p.length &&& 0xFF) :: (p.take 6).take 6))
      = (⟨true, p.length, p.take 6, 1, 0⟩, none,
         [[0x30, 0x00, 0x00, 0x00, 0x00, 0x00, 0x00, 0x00]]) := by
  have ht6 : (p.take 6).take 6 = p.take 6 := by
    rw [List.take_take]
    norm_num
  have hlen6 : (p.take 6).length = 6 := by
    rw [List.length_take]
    omega
  have hx : (p.length >>> 8) &&& 0x0F < 16 :=
    Nat.lt_of_le_of_lt Nat.and_le_right (by norm_num)
  obtain ⟨hb1, hb2⟩ := ff_pci_bits _ hx
  have hpadeq : padFrame true ((0x10 ||| ((p.length >>> 8) &&& 0x0F))
        :: (p.length &&& 0xFF) :: p.take 6)
      = (0x10 ||| ((p.length >>> 8) &&& 0x0F)) :: (p.length &&& 0xFF) :: p.take 6 := by
    apply padFrame_full
    simp only [List.length_cons, hlen6]
  have hparse : ISOTPFrame.parse
      ((0x10 ||| ((p.length >>> 8) &&& 0x0F)) :: (p.length &&& 0xFF) :: p.take 6)
      = some (.FIRST_FRAME, p.take 6) := by
    unfold ISOTPFrame.parse
    dsimp only
    rw [if_neg (by rw [hb1]; norm_num), if_pos hb1]
    rfl
  rw [ht6, hpadeq]
  unfold ISOTPReceiver.receive_frame
  rw [hparse]
  dsimp only
  unfold handleFirstFrame
  dsimp only
  have hhead : ((0x10 ||| ((p.length >>> 8) &&& 0x0F))
      :: (p.length &&& 0xFF) :: p.take 6).headI = 0x10 ||| ((p.length >>> 8) &&& 0x0F) := rfl
  have hhead2 : (((0x10 ||| ((p.length >>> 8) &&& 0x0F))
      :: (p.length &&& 0xFF) :: p.take 6).drop 1).headI = p.length &&& 0xFF := rfl
  rw [hhead, hhead2, ff_expected_length p.length (by omega), ht6]
  have hfc : ISOTPFrame.create_flow_control 0 ({} : ISOTPConfig).block_size
        ({} : ISOTPConfig).stmin ({} : ISOTPConfig).padding
      = [0x30, 0x00, 0x00, 0x00, 0x00, 0x00, 0x00, 0x00] := by decide
  rw [hfc]

theorem sf_step (p : List Nat) (h7 : p.length ≤ 7) :
    ISOTPReceiver.receive_frame {} 0 {} (padFrame true ((0x00 ||| p.length) :: p))
      = ({}, some p, []) := by
  have hz : 0x00 ||| p.length = p.length := Nat.zero_or _
  obtain ⟨hb1, hb2⟩ := sf_pci_bits p.length (by omega)
  have hpadeq : padFrame true (p.length :: p)
      = p.length :: (p ++ List.replicate (8 - (p.length + 1)) 0) := by
    rw [padFrame_eq_append (by simp only [List.length_cons]; omega), List.cons_append,
      List.length_cons]
  have hparse : ISOTPFrame.parse (p.length :: (p ++ List.replicate (8 - (p.length + 1)) 0))
      = some (.SINGLE_FRAME, p) := by
    unfold ISOTPFrame.parse
    dsimp only
    rw [if_pos hb1, hb2]
    have hdrop : (p.length :: (p ++ List.replicate (8 - (p.length + 1)) 0)).drop 1
        = p ++ List.replicate (8 - (p.length + 1)) 0 := rfl
    rw [hdrop, List.take_left' rfl]
  rw [hz, hpadeq]
  unfold ISOTPReceiver.receive_frame
  rw [hparse]
  rfl

/-- C1: for every payload of length 0 through 4095 bytes, `ISOTPSender.send`
succeeds, every emitted frame is exactly 8 bytes, feeding the frames in
order to a fresh paired `ISOTPReceiver` delivers exactly the original
payload byte-for-byte, and every flow-control frame the receiver answers
with is a Continue-to-send that the sender accepts. -/
theorem isotp_roundtrip (p : List Nat) (hlen : p.length ≤ 4095) :
    ∃ frames, ISOTPSender.send {} p = some frames ∧
      (∀ f ∈ frames, f.length = 8) ∧
      (runReceiver {} 0 {} frames).2.1 = [p] ∧
      ∀ fc ∈ (runReceiver {} 0 {} frames).2.2, senderAcceptsFlowControl fc = true := by
  by_cases h7 : p.length ≤ 7
  · refine ⟨[padFrame true ((0x00 ||| p.length) :: p)], ?_, ?_, ?_, ?_⟩
    · unfold ISOTPSender.send
      rw [if_pos h7]
      unfold ISOTPFrame.create_single_frame
      rw [if_neg (by omega)]
      rfl
    · intro f hf
      rw [List.mem_singleton] at hf
      subst hf
      apply padFrame_length
      simp only [List.length_cons]
      omega
    · rw [runReceiver_cons, sf_step p h7, runReceiver_nil]
    · intro fc hfc
      rw [runReceiver_cons, sf_step p h7, runReceiver_nil] at hfc
      simp only [List.append_nil] at hfc
      cases hfc
  · refine ⟨padFrame true ((0x10 ||| ((p.length >>> 8) &&& 0x0F))
        :: (p.length &&& 0xFF) :: (p.take 6).take 6)
        :: sendConsecutiveFrames {} (p.drop 6) 1, ?_, ?_, ?_, ?_⟩
    · unfold ISOTPSender.send
      rw [if_neg h7]
      unfold ISOTPFrame.create_first_frame
      rw [if_neg (by omega)]
      rfl
    · intro f hf
      rcases List.mem_cons.mp hf with rfl | hf'
      · apply padFrame_length
        simp only [List.length_cons, List.length_take]
        omega
      · exact sendCF_length (p.drop 6).length (p.drop 6) le_rfl 1 f hf'
    · rw [runReceiver_cons, ff_step p (by omega) hlen]
      dsimp only
      rw [runReceiver_cf p (p.length - 6) 6 1 rfl (by omega) (by norm_num)]
    · intro fc hfc
      rw [runReceiver_cons, ff_step p (by omega) hlen] at hfc
      dsimp only at hfc
      rw [runReceiver_cf p (p.length - 6) 6 1 rfl (by omega) (by norm_num)] at hfc
      simp only [List.append_nil, List.mem_singleton] at hfc
      subst hfc
      decide

theorem isotp_roundtrip_witness :
    ([1, 2, 3, 4, 5, 6, 7, 8, 9, 10] : List Nat).length ≤ 4095 ∧
    ∃ frames, ISOTPSender.send {} [1, 2, 3, 4, 5, 6, 7, 8, 9, 10] = some frames ∧
      (∀ f ∈ frames, f.length = 8) ∧
      (runReceiver {} 0 {} frames).2.1 = [[1, 2, 3, 4, 5, 6, 7, 8, 9, 10]] ∧
      ∀ fc ∈ (runReceiver {} 0 {} frames).2.2, senderAcceptsFlowControl fc = true :=
  ⟨by decide, isotp_roundtrip [1, 2, 3, 4, 5, 6, 7, 8, 9, 10] (by decide)⟩

end OBD2
